import Mathlib

/-!
Shallow embedding of the Sigma moving-head disk pack controller
(sigma/sigma_dp.c): the SIO/TIO/TDV/HIO/AIO dispatcher, the per-unit
execution state machine (dp_svc), the asynchronous seek completion
state machine (dps_svc), the interrupt bookkeeping (dp_set_ski,
dp_clr_ski, dp_clr_int) and the disk address arithmetic (dp_inv_ad,
dp_inc_ad), together with proofs of the documented properties.

Machine integers are modelled as Nat; where the source relies on
fixed 32-bit width (the complement in dp_clr_ski and in the seek
difference field update) the mask 0xFFFFFFFF is applied explicitly.

The channel subsystem and the event scheduler are external
collaborators of this module and are modelled at their interface:
  - scheduling state is a per-unit optional pending delay
    (UnitRec.activeAt); sim_activate is a no-op on an already active
    unit, sim_activate_abs reschedules, sim_cancel clears;
  - the channel is a scripted environment (ChanEnv) holding the byte
    and word responses it would deliver, the chaining and
    length-error-care decisions, plus the controller interrupt,
    device-interrupt-pending and unusual-end lines kept in DpState.
-/

namespace SigmaDp

/-! ### Constants from sigma_dp.c -/

def DP_NUMDR_10B : Nat := 8

def DP_NUMDR_16B : Nat := 15

def DP_CONT : Nat := 0xF

def DP_WDSC : Nat := 256

/-- Offset from a main unit to its seek unit in the unit array. -/
def DP_SEEK : Nat := DP_CONT + 1

def DP_C7240 : Nat := 0

def DP_C7270 : Nat := 1

def DP_C7260 : Nat := 2

def DP_C7265 : Nat := 3

def DP_C7275 : Nat := 4

def DP_C3281 : Nat := 5

/-- 10-byte-sense family test (ctype is 7240 or 7270). -/
def DP_Q10B (c : Nat) : Bool := c ≤ DP_C7270

/-- Number of drives of a controller, by family (DP_NUMDR macro). -/
def dp_numdr (c : Nat) : Nat := if DP_Q10B c then DP_NUMDR_10B else DP_NUMDR_16B

/-! Address field layout -/

def DPA_V_CY : Nat := 16

def DPA_M_CY : Nat := 0x3FF

def DPA_V_HD : Nat := 8

def DPA_M_HD : Nat := 0x1F

def DPA_V_SC : Nat := 0

def DPA_M_SC : Nat := 0x1F

def DPA_GETCY (x : Nat) : Nat := (x >>> DPA_V_CY) &&& DPA_M_CY

def DPA_GETHD (x : Nat) : Nat := (x >>> DPA_V_HD) &&& DPA_M_HD

def DPA_GETSC (x : Nat) : Nat := (x >>> DPA_V_SC) &&& DPA_M_SC

/-! Command and state codes -/

def DPS_INIT : Nat := 0x100

def DPS_END : Nat := 0x101

def DPS_WRITE : Nat := 0x01

def DPS_READ : Nat := 0x02

def DPS_SEEK : Nat := 0x03

def DPS_SEEKI : Nat := 0x83

def DPS_SENSE : Nat := 0x04

def DPS_CHECK : Nat := 0x05

def DPS_RSRV : Nat := 0x07

def DPS_WHDR : Nat := 0x09

def DPS_RHDR : Nat := 0x0A

def DPS_TEST : Nat := 0x13

def DPS_RLS : Nat := 0x17

def DPS_RLSA : Nat := 0x23

def DPS_RECAL : Nat := 0x33

def DPS_RECALI : Nat := 0xB3

/-! Seek completion sub-states -/

def DSC_SEEK : Nat := 0x00

def DSC_SEEKI : Nat := 0x80

def DSC_SEEKW : Nat := 0x01

/-! Device status flags (dp_flags register) -/

def DPF_V_WCHK : Nat := 0

def DPF_V_DPE : Nat := 1

def DPF_V_SNZ : Nat := 2

def DPF_V_EOC : Nat := 3

def DPF_V_IVA : Nat := 4

def DPF_V_PGE : Nat := 5

def DPF_V_WPE : Nat := 6

def DPF_V_AIM : Nat := 7

def DPF_WCHK : Nat := 1 <<< DPF_V_WCHK

def DPF_DPE : Nat := 1 <<< DPF_V_DPE

def DPF_SNZ : Nat := 1 <<< DPF_V_SNZ

def DPF_EOC : Nat := 1 <<< DPF_V_EOC

def DPF_IVA : Nat := 1 <<< DPF_V_IVA

def DPF_PGE : Nat := 1 <<< DPF_V_PGE

def DPF_WPE : Nat := 1 <<< DPF_V_WPE

def DPF_AIM : Nat := 1 <<< DPF_V_AIM

def DPF_V_DIFF : Nat := 16

def DPF_M_DIFF : Nat := 0xFFFF

def DPF_DIFF : Nat := DPF_M_DIFF <<< DPF_V_DIFF

/-- All bits of a 32-bit word; used where the source complements a
mask in uint32 arithmetic. -/
def U32 : Nat := 0xFFFFFFFF

/-! ### Channel interface constants

Modelled from the spec: sigma_io_defs.h is not part of the analysed
source.  The channel reports per-transfer statuses: normal, a
zero-byte-count (end of transfer) status, a command-chaining status
from chan_end, and error statuses; CHS_IFERR recognises the errors.
The concrete numbers are arbitrary but distinct, with errors the
statuses of CHS_ERR and above. -/

def CHS_ZBC : Nat := 1

def CHS_CCH : Nat := 2

def CHS_ERR : Nat := 4

def CHS_IFERR (st : Nat) : Bool := CHS_ERR ≤ st

/-- Modelled from the spec: device status word layout
(sigma_io_defs.h is not part of the analysed source).  Controller
busy and device busy are distinct flag bits, a separate bit reports
automatic operation, and condition code 2 (the busy/failure code of
the spec) sits in the condition-code field at bit 12.  CST/DST are
the same controller-busy and device-busy status bits tested by the
SIO idleness check. -/
def DVS_AUTO : Nat := 0x1

def DVS_CBUSY : Nat := 0x2

def DVS_DBUSY : Nat := 0x4

def DVS_CST : Nat := DVS_CBUSY

def DVS_DST : Nat := DVS_DBUSY

def DVT_V_CC : Nat := 12

def DVT_V_UN : Nat := 8

def CC2 : Nat := 0x4

/-- Modelled from the spec: the no-such-device result of the
dispatcher. -/
def DVT_NODEV : Nat := 0x30000

/-- Modelled from the spec: internal-error status for an unknown
operation. -/
def SCPE_IERR : Nat := 1

/-! ### Geometry table (dp_tab) -/

structure DP_TYPE where
  dtype : Nat
  cy : Nat
  hd : Nat
  sc : Nat
  ctype : Nat
  capac : Nat
  id : Nat
  deriving DecidableEq, Repr

/-- Drive geometry catalog; entries in source order.  Capacities
follow the DPSZ macros (including the source quirk that DPSZ_7266
reuses the 7276 numbers). -/
def dp_tab : List DP_TYPE :=
  [⟨0, 203, 20, 6, DP_C7240, 203 * 20 * 6 * DP_WDSC, 0⟩,
   ⟨1, 203, 20, 11, DP_C7260, 203 * 20 * 11 * DP_WDSC, 5 <<< 5⟩,
   ⟨2, 406, 20, 6, DP_C7270, 406 * 20 * 6 * DP_WDSC, 0⟩,
   ⟨3, 822, 5, 17, DP_C3281, 822 * 5 * 17 * DP_WDSC, 0⟩,
   ⟨4, 411, 19, 11, DP_C7275, 411 * 19 * 11 * DP_WDSC, 7 <<< 5⟩,
   ⟨5, 411, 20, 11, DP_C7265, 411 * 19 * 11 * DP_WDSC, 6 <<< 5⟩,
   ⟨6, 815, 19, 11, DP_C3281, 815 * 19 * 11 * DP_WDSC, 0⟩,
   ⟨7, 815, 19, 17, DP_C3281, 815 * 19 * 17 * DP_WDSC, 0⟩]

def getGeo (dtype : Nat) : DP_TYPE := dp_tab.getD dtype ⟨0, 0, 0, 0, 0, 0, 0⟩

/-! ### Command legality table (dp_cmd) -/

def C_10B : Nat := (1 <<< DP_C7240) ||| (1 <<< DP_C7270)

def C_16B : Nat :=
  (1 <<< DP_C7260) ||| (1 <<< DP_C7275) ||| (1 <<< DP_C7265) ||| (1 <<< DP_C3281)

def C_A : Nat := C_10B ||| C_16B

def C_F : Nat := 1 <<< 6

def C_C : Nat := 1 <<< 7

/-- The 256-entry command table, written as a function; all entries
not listed below are zero in the source array. -/
def dp_cmd (c : Nat) : Nat :=
  if c = 0x01 then C_A
  else if c = 0x02 then C_A
  else if c = 0x03 then C_A ||| C_F
  else if c = 0x04 then C_A ||| C_F
  else if c = 0x05 then C_A
  else if c = 0x07 then C_16B ||| C_F
  else if c = 0x09 then C_A
  else if c = 0x0A then C_A
  else if c = 0x0F then C_16B ||| C_F ||| C_C
  else if c = 0x12 then C_A
  else if c = 0x13 then C_A ||| C_F
  else if c = 0x17 then C_16B ||| C_F
  else if c = 0x1F then C_16B ||| C_F ||| C_C
  else if c = 0x23 then C_10B ||| C_F
  else if c = 0x33 then C_A ||| C_F
  else if c = 0x83 then C_A ||| C_F
  else if c = 0xB3 then C_16B ||| C_F
  else 0

/-! ### Sense byte tables -/

structure DP_SNSTAB where
  byte : Nat
  mask : Nat
  fpos : Nat
  tpos : Nat
  deriving DecidableEq, Repr

def dp_sense_10B : List DP_SNSTAB :=
  [⟨7, 0x00FF0000, 16, 0⟩,
   ⟨8, DPF_WCHK, DPF_V_WCHK, 6⟩,
   ⟨8, DPF_SNZ, DPF_V_SNZ, 2⟩,
   ⟨9, 0x01000000, 24, 0⟩]

def dp_sense_16B : List DP_SNSTAB :=
  [⟨8, DPF_WCHK, DPF_V_WCHK, 7⟩,
   ⟨8, DPF_EOC, DPF_V_EOC, 3⟩,
   ⟨8, DPF_AIM, DPF_V_AIM, 2⟩,
   ⟨14, 0xFF000000, 24, 0⟩,
   ⟨15, 0x00FF0000, 16, 0⟩]

/-! ### State -/

/-- One UNIT of the device: disk address (UDA), current command or
state code (UCMD), the pending scheduler delay if the unit is active,
and the relevant unit flags (drive type, write lock, disabled). -/
structure UnitRec where
  uda : Nat := 0
  ucmd : Nat := 0
  activeAt : Option Nat := none
  dtype : Nat := 0
  ro : Bool := false
  dis : Bool := false
  deriving DecidableEq, Repr

/-- State of one controller (DP_CTX) together with its units, the
channel-side interrupt lines and the shared sector buffer and backing
store.  chi is the pending controller-level channel interrupt (with
the unit it belongs to), inp the device-interrupt-pending line, uend
records that an unusual end was signalled. -/
structure DpState where
  ctype : Nat := 0
  time : Nat := 1
  stime : Nat := 20
  flags : Nat := 0
  ski : Nat := 0
  test : Nat := 0
  units : Nat → UnitRec
  chi : Option Nat := none
  inp : Bool := false
  uend : Bool := false
  buf : Nat → Nat := fun _ => 0
  disk : Nat → Nat := fun _ => 0

/-- Scripted responses of the channel collaborator for one service
call: byte reads, word reads, statuses answered to byte and word
writes, the chaining and length-error decisions, the fetched command,
the chan_end status and the rotational position GET_PSC would
report. -/
structure ChanEnv where
  ctl : Nat := 1
  rdB : List (Nat × Nat) := []
  rdW : List (Nat × Nat) := []
  wrB : List Nat := []
  wrW : List Nat := []
  lnteCare : Bool := false
  cch : Bool := false
  getCmd : Nat × Nat := (0, 0)
  endSt : Nat := 0
  psc : Nat := 0

/-! ### Scheduler and unit primitives -/

def updU (s : DpState) (i : Nat) (f : UnitRec → UnitRec) : DpState :=
  { s with units := fun j => if j = i then f (s.units j) else s.units j }

def simIsActive (s : DpState) (i : Nat) : Bool := (s.units i).activeAt.isSome

/-- sim_activate: schedules only when the unit is not already
active. -/
def simActivate (s : DpState) (i : Nat) (t : Nat) : DpState :=
  if simIsActive s i then s else updU s i (fun u => { u with activeAt := some t })

/-- sim_activate_abs: cancels any pending event and reschedules. -/
def simActivateAbs (s : DpState) (i : Nat) (t : Nat) : DpState :=
  updU s i (fun u => { u with activeAt := some t })

def simCancel (s : DpState) (i : Nat) : DpState :=
  updU s i (fun u => { u with activeAt := none })

def setUcmd (s : DpState) (i : Nat) (c : Nat) : DpState :=
  updU s i (fun u => { u with ucmd := c })

/-- chan_uen: record the unusual-end signal to the channel. -/
def chanUen (s : DpState) : DpState := { s with uend := true }

/-! ### Interrupt ledger -/

/-- dp_set_ski: set the per-drive seek interrupt bit and assert the
device-interrupt-pending line (chan_set_dvi). -/
def dp_set_ski (s : DpState) (un : Nat) : DpState :=
  { s with ski := s.ski ||| (1 <<< un), inp := true }

/-- dp_clr_ski: clear the bit; if other bits remain re-assert INP,
else, when no controller interrupt is pending either, drop INP
(chan_clr_chi on an idle channel). -/
def dp_clr_ski (s : DpState) (un : Nat) : DpState :=
  let ski1 := s.ski &&& (U32 ^^^ (1 <<< un))
  if ski1 ≠ 0 then { s with ski := ski1, inp := true }
  else if s.chi.isNone then { s with ski := ski1, chi := none, inp := false }
  else { s with ski := ski1 }

/-- First drive index below numdr whose seek interrupt bit is set,
scanning upward from i (the AIO scan loop of dp_clr_int). -/
def findSkiAux (ski : Nat) : Nat → Nat → Option Nat
  | 0, _ => none
  | fuel + 1, i => if ski.testBit i then some i else findSkiAux ski fuel (i + 1)

/-- dp_clr_int: acknowledge the controller interrupt first (leaving
INP asserted when seek interrupts remain), else clear and return the
lowest pending seek interrupt, else return unit 0 unchanged. -/
def dp_clr_int (s : DpState) : DpState × Nat :=
  match s.chi with
  | some iu =>
      let s1 : DpState := { s with chi := none, inp := false }
      (if s1.ski ≠ 0 then { s1 with inp := true } else s1, iu)
  | none =>
      match findSkiAux s.ski (dp_numdr s.ctype) 0 with
      | some iu => (dp_clr_ski s iu, iu)
      | none => (s, 0)

/-! ### Address codec -/

/-- dp_inv_ad, validity part: TRUE when the address is out of the
geometry bounds. -/
def dp_inv_ad (dtype uda : Nat) : Bool :=
  let geo := getGeo dtype
  decide (geo.cy ≤ DPA_GETCY uda) || decide (geo.hd ≤ DPA_GETHD uda) ||
    decide (geo.sc ≤ DPA_GETSC uda)

/-- dp_inv_ad, word-offset part: flat word address of a valid disk
address. -/
def dp_da (dtype uda : Nat) : Nat :=
  let geo := getGeo dtype
  (((DPA_GETCY uda * geo.hd) + DPA_GETHD uda) * geo.sc + DPA_GETSC uda) * DP_WDSC

/-- dp_inc_ad: advance sector, wrapping into the next head and back
to head zero at the end of the cylinder; the Bool reports the
end-of-cylinder wrap (head and sector both wrapped to zero). -/
def dp_inc_ad (dtype uda : Nat) : Nat × Bool :=
  let geo := getGeo dtype
  let cy := DPA_GETCY uda
  let hd := DPA_GETHD uda
  let sc := DPA_GETSC uda
  let sc1 := sc + 1
  let hs : Nat × Nat :=
    if geo.sc ≤ sc1 then (if geo.hd ≤ hd + 1 then 0 else hd + 1, 0) else (hd, sc1)
  ((cy <<< DPA_V_CY) ||| (hs.1 <<< DPA_V_HD) ||| hs.2,
    hs.1 = 0 && hs.2 = 0)

/-- dp_inc_ad applied to the disk address of unit un. -/
def dp_inc_ad_u (s : DpState) (un : Nat) : DpState × Bool :=
  let r := dp_inc_ad (s.units un).dtype (s.units un).uda
  (updU s un (fun u => { u with uda := r.1 }), r.2)

/-! ### Status routines -/

/-- Some main unit of the controller is active (the TIO controller
scan). -/
def dpCtlBusy (s : DpState) : Bool :=
  (List.range (dp_numdr s.ctype)).any (fun i => simIsActive s i)

/-- dp_tio_status: the controller is busy if any drive is busy; the
device is busy if either the main unit or the seek unit is busy. -/
def dp_tio_status (s : DpState) (un : Nat) : Nat :=
  let stat := DVS_AUTO
  let stat := if dpCtlBusy s then stat ||| DVS_CBUSY ||| (CC2 <<< DVT_V_CC) else stat
  if simIsActive s un || simIsActive s (un + DP_SEEK) then
    stat ||| DVS_DBUSY ||| (CC2 <<< DVT_V_CC)
  else stat

/-- A drive is on cylinder when its seek unit is idle or merely
waiting to interrupt. -/
def dpOnCyl (s : DpState) (un : Nat) : Bool :=
  !simIsActive s (un + DP_SEEK) || ((s.units (un + DP_SEEK)).ucmd == DSC_SEEKW)

def dp_tdv_status (s : DpState) (un : Nat) : Nat :=
  if DP_Q10B s.ctype then
    (if s.flags &&& (DPF_IVA ||| DPF_PGE) ≠ 0 then 0x20 else 0) |||
      (if dpOnCyl s un then 0x04 else 0)
  else
    (if s.flags &&& DPF_PGE ≠ 0 then 0x20 else 0) |||
      (if s.flags &&& DPF_WPE ≠ 0 then 0x08 else 0)

def dp_aio_status (s : DpState) (un : Nat) : Nat :=
  (if DP_Q10B s.ctype && dpOnCyl s un then 0x04 else 0) |||
    (if s.chi.isNone then 0x08 else 0)

/-! ### Dispatcher (dp_disp) -/

inductive DpOp where
  | sio
  | tio
  | tdv
  | hio
  | aio
  | other
  deriving DecidableEq, Repr

/-- The addressed drive exists: index in range and not disabled, or
the controller pseudo-drive 0xF on the T3281. -/
def dp_valid_un (s : DpState) (un : Nat) : Bool :=
  (decide (un < dp_numdr s.ctype) && !(s.units un).dis) ||
    (decide (un = DP_CONT) && decide (s.ctype = DP_C3281))

/-- One step of the SIO knock-down pass: when drive i holds a pending
seek interrupt, clear it, reschedule its seek unit ten
channel-control-time units out and mark it waiting to interrupt. -/
def knockOne (ctl : Nat) (s : DpState) (i : Nat) : DpState :=
  if s.ski.testBit i then
    let s1 := dp_clr_ski s i
    let s2 := simActivate s1 (i + DP_SEEK) (ctl * 10)
    setUcmd s2 (i + DP_SEEK) DSC_SEEKW
  else s

def knockDownAux (ctl : Nat) : List Nat → DpState → DpState
  | [], s => s
  | i :: rest, s => knockDownAux ctl rest (knockOne ctl s i)

/-- The knock-down loop over all drives of the controller. -/
def knockDown (ctl : Nat) (s : DpState) : DpState :=
  knockDownAux ctl (List.range (dp_numdr s.ctype)) s

/-- The HIO whole-controller loop body for drive i. -/
def hioOne (s : DpState) (i : Nat) : DpState :=
  let s1 := if simIsActive s i then chanUen (simCancel s i) else s
  let s2 := dp_clr_ski s1 i
  simCancel s2 (i + DP_SEEK)

def hioAll : List Nat → DpState → DpState
  | [], s => s
  | i :: rest, s => hioAll rest (hioOne s i)

/-- dp_disp: the dispatch routine for one controller.  Returns the
new state, the status word written to dvst (0 when the routine does
not write it) and the function result. -/
def dp_disp (ctl : Nat) (s : DpState) (op : DpOp) (un : Nat) : DpState × Nat × Nat :=
  if ¬ dp_valid_un s un then (s, 0, DVT_NODEV)
  else
    match op with
    | .sio =>
        let dvst := dp_tio_status s un
        if s.chi.isSome || s.ski.testBit un then
          (s, dvst ||| (CC2 <<< DVT_V_CC), 0)
        else
          let s1 := knockDown ctl s
          let s2 :=
            if dvst &&& (DVS_CST ||| DVS_DST) = 0 then
              simActivate (setUcmd s1 un DPS_INIT) un ctl
            else s1
          (s2, dvst, 0)
    | .tio => (s, dp_tio_status s un, 0)
    | .tdv => (s, dp_tdv_status s un, 0)
    | .hio =>
        let dvst := dp_tio_status s un
        if un ≠ DP_CONT then
          let s1 := if s.chi = some un then { s with chi := none, inp := false } else s
          let s2 := if simIsActive s1 un then chanUen (simCancel s1 un) else s1
          let s3 := dp_clr_ski s2 un
          (simCancel s3 (un + DP_SEEK), dvst, 0)
        else
          let s1 := hioAll (List.range (dp_numdr s.ctype)) s
          ({ s1 with chi := none, inp := false }, dvst, 0)
    | .aio =>
        let r := dp_clr_int s
        (r.1, dp_aio_status r.1 r.2 ||| (r.2 <<< DVT_V_UN), 0)
    | .other => (s, 0, SCPE_IERR)

/-! ### Seek completion service (dps_svc) -/

/-- dps_svc for the seek unit of drive un: a command-chained plain
seek does nothing; otherwise a pending controller interrupt defers
the completion (reschedule after dp_time × sectors/track, sub-state
waiting-to-interrupt), else the seek interrupt bit is set. -/
def dps_svc (s : DpState) (un : Nat) : DpState :=
  let uidx := un + DP_SEEK
  if (s.units uidx).ucmd ≠ DSC_SEEK then
    if s.chi.isSome then
      let s1 := simActivate s uidx (s.time * (getGeo (s.units un).dtype).sc)
      setUcmd s1 uidx DSC_SEEKW
    else dp_set_ski s un
  else s

/-! ### Channel transfer loops of dp_svc -/

/-- One chan_RdMemB / chan_RdMemW call against the script: the next
response and the rest of the script.  An exhausted script answers
zero byte count with data zero. -/
def chanRd (l : List (Nat × Nat)) : (Nat × Nat) × List (Nat × Nat) :=
  (l.headD (CHS_ZBC, 0), l.tail)

/-- The bounded read loop `for (i, st = 0; i < max, st != ZBC; i++)`
of the seek and write-header bodies: collects the bytes read and
stops on zero byte count; a channel error aborts with the status. -/
def rdBytesLoop : Nat → Nat → Nat → List Nat → List (Nat × Nat) →
    Except Nat (List Nat × Nat × Nat × List (Nat × Nat))
  | 0, i, st, acc, l => .ok (acc, i, st, l)
  | fuel + 1, i, st, acc, l =>
      if st = CHS_ZBC then .ok (acc, i, st, l)
      else
        let r := chanRd l
        if CHS_IFERR r.1.1 then .error r.1.1
        else rdBytesLoop fuel (i + 1) r.1.1 (acc ++ [r.1.2]) r.2

/-- The write-command word loop: always runs the full sector, reading
words while the channel has data and zero-filling afterwards. -/
def wrWordsLoop : Nat → Nat → Nat → List (Nat × Nat) → (Nat → Nat) →
    Except Nat ((Nat → Nat) × Nat × List (Nat × Nat))
  | 0, _, st, l, buf => .ok (buf, st, l)
  | fuel + 1, i, st, l, buf =>
      if st ≠ CHS_ZBC then
        let r := chanRd l
        if CHS_IFERR r.1.1 then .error r.1.1
        else
          wrWordsLoop fuel (i + 1) r.1.1 r.2
            (fun j => if j = i then r.1.2 else buf j)
      else
        wrWordsLoop fuel (i + 1) st l (fun j => if j = i then 0 else buf j)

/-- Outcome of the write-check compare loop. -/
inductive CheckOut where
  | cerr (st : Nat)
  | mism
  | done (i : Nat) (st : Nat)
  deriving DecidableEq, Repr

/-- The write-check byte compare loop: reads channel bytes and
compares each against the buffered sector, stopping at the first
mismatch. -/
def checkLoop (buf : Nat → Nat) : Nat → Nat → Nat → List (Nat × Nat) → CheckOut
  | 0, i, st, _ => .done i st
  | fuel + 1, i, st, l =>
      if st = CHS_ZBC then .done i st
      else
        let r := chanRd l
        if CHS_IFERR r.1.1 then .cerr r.1.1
        else
          let wd1 := (buf (i >>> 2) >>> (24 - (i &&& 0x3) * 8)) &&& 0xFF
          if r.1.2 ≠ wd1 then .mism
          else checkLoop buf fuel (i + 1) r.1.1 r.2

/-- The channel write loop of sense, read and read-header: emits
values against the scripted write statuses, logging what was sent. -/
def emitLoop : Nat → Nat → Nat → List Nat → List Nat → List Nat →
    Except Nat (Nat × Nat × List Nat)
  | 0, i, st, _, _, log => .ok (i, st, log)
  | fuel + 1, i, st, sts, vals, log =>
      if st = CHS_ZBC then .ok (i, st, log)
      else
        let st1 := sts.headD CHS_ZBC
        if CHS_IFERR st1 then .error st1
        else emitLoop fuel (i + 1) st1 sts.tail vals.tail (log ++ [vals.headD 0])

/-- The test-mode byte loop of dp_test_mode: reads while the channel
has data, zero-fills the remaining pattern bytes. -/
def testLoop : Nat → Nat → Nat → List (Nat × Nat) → Nat → Except Nat Nat
  | 0, _, _, _, acc => .ok acc
  | fuel + 1, i, st, l, acc =>
      if st ≠ CHS_ZBC then
        let r := chanRd l
        if CHS_IFERR r.1.1 then .error r.1.1
        else testLoop fuel (i + 1) r.1.1 r.2 (acc ||| ((r.1.2 &&& 0xFF) <<< (i * 8)))
      else testLoop fuel (i + 1) st l acc

/-! ### Sector read/write against the backing store -/

/-- dp_read: fill the transfer buffer from the backing store at word
offset da (the model has no storage errors; short files read as
zero via the total disk function). -/
def dp_read (s : DpState) (da : Nat) : DpState :=
  { s with buf := fun i => if i < DP_WDSC then s.disk (da + i) else 0 }

/-- dp_write: persist the transfer buffer at word offset da. -/
def dp_write (s : DpState) (da : Nat) : DpState :=
  { s with disk := fun a => if da ≤ a ∧ a < da + DP_WDSC then s.buf (a - da) else s.disk a }

/-! ### Sector end policy (dp_end_sec) -/

/-- Advance past the serviced sector.  More data and a cylinder
crossing: invalid-address and end-of-cylinder flags plus unusual end;
more data otherwise: reschedule the same command after sixteen word
times; transfer done: a length mismatch sets the program error flag
for header operations and ends unusually when the channel cares.  A
TRUE result tells dp_svc to stop (error or continuation); FALSE falls
through to the END state. -/
def dp_end_sec (lnteCare : Bool) (s : DpState) (un lnt exp st : Nat) : DpState × Bool :=
  if st ≠ CHS_ZBC then
    let r := dp_inc_ad_u s un
    if r.2 then
      (chanUen { r.1 with flags := r.1.flags ||| DPF_IVA ||| DPF_EOC }, true)
    else (simActivate r.1 un (s.time * 16), true)
  else
    let r := dp_inc_ad_u s un
    if lnt ≠ exp then
      let s2 := if exp = 8 then { r.1 with flags := r.1.flags ||| DPF_PGE } else r.1
      (s2, lnteCare)
    else (r.1, false)

/-! ### Unit service (dp_svc) -/

/-- The post-switch epilogue: enter the END state one control time
out. -/
def dpToEnd (ctl : Nat) (s : DpState) (un : Nat) : DpState :=
  simActivate (setUcmd s un DPS_END) un ctl

/-- Shared tail of the seek and recalibrate bodies: store the 16-bit
clamped cylinder difference in the flags register, store the target
address, schedule seek completion after max(1, difference) seek
times, and derive the seek sub-state from chaining or from the
interrupt bit of the command itself. -/
def dpSeekTail (env : ChanEnv) (s : DpState) (un da : Nat) : DpState :=
  let dc := DPA_GETCY da
  let t : Nat := ((DPA_GETCY (s.units un).uda : Int) - (dc : Int)).natAbs
  let s1 : DpState :=
    { s with flags := (s.flags &&& (U32 ^^^ DPF_DIFF)) ||| ((t &&& DPF_M_DIFF) <<< DPF_V_DIFF) }
  let t1 := if t = 0 then 1 else t
  let s2 := updU s1 un (fun u => { u with uda := da })
  let s3 := simActivate s2 (un + DP_SEEK) (t1 * s.stime)
  let s4 := setUcmd s3 (un + DP_SEEK)
    (if env.cch then DSC_SEEK else (s2.units un).ucmd &&& 0x80)
  dpToEnd env.ctl s4 un

/-- The seek and seek-and-interrupt body: read the four address
bytes (zero-filled on a short transfer), flag a program error when
the high six bits are set or on a length error the channel cares
about, give up on a transfer shorter than four bytes, else run the
shared tail. -/
def dpSeekBody (env : ChanEnv) (s : DpState) (un : Nat) : DpState :=
  match rdBytesLoop 4 0 0 [] env.rdB with
  | .error _ => chanUen s
  | .ok (bs, i, st, _) =>
      let c := bs ++ List.replicate (4 - bs.length) 0
      let da := (c.getD 0 0 <<< 24) ||| (c.getD 1 0 <<< 16) |||
        (c.getD 2 0 <<< 8) ||| c.getD 3 0
      let s1 :=
        if c.getD 0 0 &&& 0xFC ≠ 0 then { s with flags := s.flags ||| DPF_PGE } else s
      if (i ≠ 4 ∨ st ≠ CHS_ZBC) ∧ env.lnteCare then
        { s1 with flags := s1.flags ||| DPF_PGE }
      else if i < 4 then chanUen s1
      else dpSeekTail env s1 un da

/-- The write-check body, also the target of the write-header
fall-through; l is the unread remainder of the channel byte
script. -/
def dpCheckBody (env : ChanEnv) (s : DpState) (un : Nat) (l : List (Nat × Nat)) : DpState :=
  if dp_inv_ad (s.units un).dtype (s.units un).uda then
    chanUen { s with flags := s.flags ||| DPF_PGE }
  else
    let da := dp_da (s.units un).dtype (s.units un).uda
    let s1 := dp_read s da
    match checkLoop s1.buf (DP_WDSC * 4) 0 0 l with
    | .cerr _ => chanUen (dp_inc_ad_u s1 un).1
    | .mism =>
        chanUen { (dp_inc_ad_u s1 un).1 with
          flags := (dp_inc_ad_u s1 un).1.flags ||| DPF_WCHK }
    | .done i st =>
        let r := dp_end_sec env.lnteCare s1 un i (DP_WDSC * 4) st
        if r.2 then r.1 else dpToEnd env.ctl r.1 un

/-- The write body. -/
def dpWriteBody (env : ChanEnv) (s : DpState) (un : Nat) : DpState :=
  if (s.units un).ro then chanUen { s with flags := s.flags ||| DPF_WPE }
  else if dp_inv_ad (s.units un).dtype (s.units un).uda then
    chanUen { s with flags := s.flags ||| DPF_PGE }
  else
    let da := dp_da (s.units un).dtype (s.units un).uda
    match wrWordsLoop DP_WDSC 0 0 env.rdW s.buf with
    | .error _ => chanUen (dp_inc_ad_u s un).1
    | .ok (buf1, st, _) =>
        let s1 := dp_write { s with buf := buf1 } da
        let r := dp_end_sec env.lnteCare s1 un DP_WDSC DP_WDSC st
        if r.2 then r.1 else dpToEnd env.ctl r.1 un

/-- The write-header body: write-protect, address and sector-zero
guards, then eight bytes consumed and discarded.  The source case has
no break after dp_end_sec, so a completed transfer continues into the
write-check body. -/
def dpWhdrBody (env : ChanEnv) (s : DpState) (un : Nat) : DpState :=
  if (s.units un).ro then chanUen { s with flags := s.flags ||| DPF_WPE }
  else if dp_inv_ad (s.units un).dtype (s.units un).uda then
    chanUen { s with flags := s.flags ||| DPF_PGE }
  else if DPA_GETSC (s.units un).uda ≠ 0 then
    chanUen { s with flags := s.flags ||| DPF_SNZ }
  else
    match rdBytesLoop 8 0 0 [] env.rdB with
    | .error _ => chanUen (dp_inc_ad_u s un).1
    | .ok (_, i, st, rest) =>
        let r := dp_end_sec env.lnteCare s un i 8 st
        if r.2 then r.1 else dpCheckBody env r.1 un rest

/-- The read body. -/
def dpReadBody (env : ChanEnv) (s : DpState) (un : Nat) : DpState :=
  if dp_inv_ad (s.units un).dtype (s.units un).uda then
    chanUen { s with flags := s.flags ||| DPF_PGE }
  else
    let da := dp_da (s.units un).dtype (s.units un).uda
    let s1 := dp_read s da
    match emitLoop DP_WDSC 0 0 env.wrW ((List.range DP_WDSC).map s1.buf) [] with
    | .error _ => chanUen (dp_inc_ad_u s1 un).1
    | .ok (i, st, _) =>
        let r := dp_end_sec env.lnteCare s1 un i DP_WDSC st
        if r.2 then r.1 else dpToEnd env.ctl r.1 un

/-- The read-header body: synthesize eight bytes from the current
address. -/
def dpRhdrBody (env : ChanEnv) (s : DpState) (un : Nat) : DpState :=
  if dp_inv_ad (s.units un).dtype (s.units un).uda then
    chanUen { s with flags := s.flags ||| DPF_PGE }
  else
    let wd := DPA_GETCY (s.units un).uda
    let c := [0, (wd >>> 8) &&& 0xFF, wd &&& 0xFF, DPA_GETHD (s.units un).uda,
      DPA_GETSC (s.units un).uda, 0, 0, 0]
    match emitLoop 8 0 0 env.wrB c [] with
    | .error _ => chanUen (dp_inc_ad_u s un).1
    | .ok (i, st, _) =>
        let r := dp_end_sec env.lnteCare s un i 8 st
        if r.2 then r.1 else dpToEnd env.ctl r.1 un

/-- dp_set_sense: refresh the arm-in-motion flag from the seek unit,
then fold the family sense table over the byte array. -/
def dp_set_sense (s : DpState) (un : Nat) (c : List Nat) : DpState × List Nat :=
  let sp := s.units (un + DP_SEEK)
  let flags1 :=
    if simIsActive s (un + DP_SEEK) && (sp.ucmd ≠ DSC_SEEKW) then s.flags ||| DPF_AIM
    else s.flags &&& (U32 ^^^ DPF_AIM)
  let s1 : DpState := { s with flags := flags1 }
  let tbl := if DP_Q10B s.ctype then dp_sense_10B else dp_sense_16B
  (s1, tbl.foldl
    (fun cc e =>
      if s1.flags &&& e.mask ≠ 0 then
        cc.set e.byte (cc.getD e.byte 0 ||| ((((s1.flags &&& e.mask) >>> e.fpos) &&& 0xFF) <<< e.tpos))
      else cc)
    c)

/-- The sense body. -/
def dpSenseBody (env : ChanEnv) (s : DpState) (un : Nat) : DpState :=
  let u := s.units un
  let nby := if DP_Q10B s.ctype then 10 else 16
  let c0 := List.replicate 16 0
  let c1 := (((c0.set 0 ((u.uda >>> 24) &&& 0xFF)).set 1 ((u.uda >>> 16) &&& 0xFF)).set 2
    ((u.uda >>> 8) &&& 0xFF)).set 3 (u.uda &&& 0xFF)
  let c2 := c1.set 4 (env.psc |||
    (if simIsActive s un && (u.ucmd &&& 0x7F == DPS_SEEK) then 0x80 else 0))
  let c3 :=
    if ¬ DP_Q10B s.ctype then
      let ca := c2.set 5 (un ||| (getGeo u.dtype).id)
      let cb := if s.ctype = DP_C3281 then ca.set 7 un else ca
      (cb.set 10 ((s.ski >>> 8) &&& 0xFF)).set 11 (s.ski &&& 0xFF)
    else c2
  let r := dp_set_sense s un c3
  match emitLoop nby 0 0 env.wrB r.2 [] with
  | .error _ => chanUen r.1
  | .ok (i, st, _) =>
      if i ≠ nby ∨ st ≠ CHS_ZBC then
        let s2 : DpState := { r.1 with flags := r.1.flags ||| DPF_PGE }
        if env.lnteCare then s2 else dpToEnd env.ctl s2 un
      else dpToEnd env.ctl r.1 un

/-- The test-mode body (dp_test_mode). -/
def dpTestBody (env : ChanEnv) (s : DpState) (un : Nat) : DpState :=
  let nby := if DP_Q10B s.ctype then 1 else 2
  match testLoop nby 0 0 env.rdB 0 with
  | .error _ => chanUen { s with test := 0 }
  | .ok acc => dpToEnd env.ctl { s with test := acc } un

/-- The command dispatch of dp_svc once a command is running; cases
absent from the source switch fall straight through to END, as do
reserve and the releases. -/
def dpCmdStep (env : ChanEnv) (s : DpState) (un : Nat) : DpState :=
  let cmd := (s.units un).ucmd
  if cmd = DPS_SEEK ∨ cmd = DPS_SEEKI then dpSeekBody env s un
  else if cmd = DPS_RECAL ∨ cmd = DPS_RECALI then dpSeekTail env s un 0
  else if cmd = DPS_SENSE then dpSenseBody env s un
  else if cmd = DPS_WRITE then dpWriteBody env s un
  else if cmd = DPS_WHDR then dpWhdrBody env s un
  else if cmd = DPS_CHECK then dpCheckBody env s un env.rdB
  else if cmd = DPS_READ then dpReadBody env s un
  else if cmd = DPS_RHDR then dpRhdrBody env s un
  else if cmd = DPS_TEST then dpTestBody env s un
  else dpToEnd env.ctl s un

/-- The INIT state: fetch and validate the next command, schedule the
body (fast commands after one control time, data transfers when the
target sector comes under the head) and cancel any leftover seek
event. -/
def dpInitStep (env : ChanEnv) (s : DpState) (un : Nat) : DpState :=
  let st := env.getCmd.1
  let cmd := env.getCmd.2
  if CHS_IFERR st then chanUen s
  else
    let s1 : DpState := { s with flags := 0 }
    if dp_cmd cmd &&& (1 <<< s.ctype) = 0 then
      chanUen { s1 with flags := s1.flags ||| DPF_PGE }
    else if un = DP_CONT ∧ dp_cmd cmd &&& C_C = 0 then
      chanUen { s1 with flags := s1.flags ||| DPF_PGE }
    else
      let s2 := setUcmd s1 un cmd
      let s3 :=
        if dp_cmd cmd &&& C_F ≠ 0 then simActivateAbs s2 un env.ctl
        else
          let geo := getGeo (s2.units un).dtype
          let t : Int := (DPA_GETSC (s2.units un).uda : Int) - (env.psc : Int)
          let t1 : Int := if t < 0 then t + geo.sc else t
          simActivateAbs s2 un (t1.toNat * s.time * DP_WDSC)
      simCancel s3 (un + DP_SEEK)

/-- The END state: report channel end; on command chaining restart
the thread in INIT. -/
def dpEndStep (env : ChanEnv) (s : DpState) (un : Nat) : DpState :=
  if CHS_IFERR env.endSt then chanUen s
  else if env.endSt = CHS_CCH then simActivate (setUcmd s un DPS_INIT) un env.ctl
  else s

/-- dp_svc: the per-unit execution state machine. -/
def dp_svc (env : ChanEnv) (s : DpState) (un : Nat) : DpState :=
  if (s.units un).ucmd = DPS_INIT then dpInitStep env s un
  else if (s.units un).ucmd = DPS_END then dpEndStep env s un
  else dpCmdStep env s un

/-! ### Derived definitions used by the statements -/

/-- The 16-bit cylinder difference field of the status flags register
(the DIFF register view). -/
def diffField (x : Nat) : Nat := (x >>> DPF_V_DIFF) &&& DPF_M_DIFF

/-- n-fold application of dp_inc_ad, counting how often the
end-of-cylinder wrap was reported. -/
def iterInc (dtype : Nat) : Nat → Nat → Nat × Nat
  | 0, uda => (uda, 0)
  | n + 1, uda =>
      let r := dp_inc_ad dtype uda
      let r2 := iterInc dtype n r.1
      (r2.1, (if r.2 then 1 else 0) + r2.2)

/-! ### Concrete states and scripts used by the witnesses -/

def sWit1 : DpState := { units := fun _ => {}, chi := some 0 }

def sWit2 : DpState := { units := fun _ => {}, ski := 2 }

def sC3 : DpState :=
  { units := fun j => if j = DP_SEEK then { ucmd := DSC_SEEKI } else {}, chi := some 0 }

def sWit4 : DpState := { units := fun _ => {}, chi := some 3, ski := 4 }

def sWit6 : DpState :=
  { units := fun j => if j = 0 then { ucmd := DPS_SEEK, uda := 5 <<< 16 } else {} }

def envWit6 : ChanEnv := { rdB := [(0, 0), (0, 10), (0, 2), (1, 3)] }

def sWit9 : DpState :=
  { units := fun j =>
      if j = 0 then { ucmd := DPS_RECAL, uda := (7 <<< 16) ||| (3 <<< 8) ||| 2 } else {} }

def sWit10 : DpState :=
  { units := fun j => if j = 0 then { ro := true } else {},
    disk := fun _ => 0x11223344 }

def envWit10 : ChanEnv := { rdB := [(0, 5)] }

def sW8 : DpState := { units := fun j => if j = 0 then { ucmd := DPS_WHDR } else {} }

def envW8 : ChanEnv :=
  { ctl := 1,
    rdB := [(0, 1), (0, 2), (0, 3), (0, 4), (0, 5), (0, 6), (0, 7), (1, 8), (0, 99)] }

/-! ### Basic state lemmas -/

theorem updU_same (s : DpState) (i : Nat) (f : UnitRec → UnitRec) :
    (updU s i f).units i = f (s.units i) := by
  simp [updU]

theorem updU_other (s : DpState) {i j : Nat} (f : UnitRec → UnitRec) (h : j ≠ i) :
    (updU s i f).units j = s.units j := by
  simp [updU, h]

theorem testBit_small {x n : Nat} (h : x < 2 ^ n) {j : Nat} (hj : n ≤ j) :
    x.testBit j = false :=
  Nat.testBit_lt_two_pow (lt_of_lt_of_le h (Nat.pow_le_pow_right (by norm_num) hj))

theorem testBit_shiftLeft_small {x n j : Nat} (hj : j < n) :
    (x <<< n).testBit j = false := by
  rw [Nat.testBit_shiftLeft]
  simp [Nat.not_le.mpr hj]

/-! ### C1: SIO against a pending interrupt -/

/-- C1: an SIO issued to a valid drive while a controller-level
channel interrupt is pending, or while the targeted drive has its
seek interrupt bit set, returns the busy condition code CC2 in the
status word and changes no state at all. -/
theorem sio_busy_no_change (ctl : Nat) (s : DpState) (un : Nat)
    (hv : dp_valid_un s un = true)
    (hbusy : s.chi.isSome = true ∨ s.ski.testBit un = true) :
    dp_disp ctl s .sio un = (s, dp_tio_status s un ||| (CC2 <<< DVT_V_CC), 0) ∧
    (dp_disp ctl s .sio un).2.1.testBit 14 = true := by
  have hcond : (s.chi.isSome || s.ski.testBit un) = true := by
    rcases hbusy with h | h <;> simp [h]
  refine ⟨by simp [dp_disp, hv, hcond], ?_⟩
  simp only [dp_disp, hv, hcond]
  simp [Nat.testBit_lor]
  exact Or.inr (by decide)

theorem sio_busy_no_change_witness :
    dp_valid_un sWit1 0 = true ∧
    (dp_disp 1 sWit1 .sio 0 = (sWit1, dp_tio_status sWit1 0 ||| (CC2 <<< DVT_V_CC), 0) ∧
      (dp_disp 1 sWit1 .sio 0).2.1.testBit 14 = true) :=
  ⟨by decide, sio_busy_no_change 1 sWit1 0 (by decide) (Or.inl (by decide))⟩

/-! ### C7: TIO status synthesis -/

/-- C7: the TIO status reports controller busy exactly when some main
unit of the controller is active, device busy exactly when the main
or the seek unit of the addressed drive is active, the two
contributions being independent bits of the status word, and the TIO
dispatch changes no state. -/
theorem tio_status_correct (ctl : Nat) (s : DpState) (un : Nat) :
    (dp_tio_status s un).testBit 1 = dpCtlBusy s ∧
    (dp_tio_status s un).testBit 2 = (simIsActive s un || simIsActive s (un + DP_SEEK)) ∧
    (dp_disp ctl s .tio un).1 = s := by
  refine ⟨?_, ?_, ?_⟩
  · cases hc : dpCtlBusy s <;>
      cases hd : (simIsActive s un || simIsActive s (un + DP_SEEK)) <;>
(simp [dp_tio_status, hc, hd]; decide)
  · cases hc : dpCtlBusy s <;>
      cases hd : (simIsActive s un || simIsActive s (un + DP_SEEK)) <;>
(simp [dp_tio_status, hc, hd]; decide)
  · by_cases h : dp_valid_un s un = true <;> simp [dp_disp, h]

/-! ### Bit mask lemmas -/

theorem testBit_u32 (j : Nat) : U32.testBit j = decide (j < 32) := by
  have h : U32 = 2 ^ 32 - 1 := by norm_num [U32]
  rw [h, Nat.testBit_two_pow_sub_one]

theorem testBit_one_shift (un j : Nat) : ((1 : Nat) <<< un).testBit j = decide (un = j) := by
  rw [Nat.shiftLeft_eq, one_mul, Nat.testBit_two_pow]

theorem dp_clr_ski_ski (s : DpState) (un : Nat) :
    (dp_clr_ski s un).ski = s.ski &&& (U32 ^^^ (1 <<< un)) := by
  simp only [dp_clr_ski]
  split_ifs <;> rfl

theorem dp_clr_ski_testBit (s : DpState) (un k : Nat) (hk : k < 32) :
    ((dp_clr_ski s un).ski).testBit k = (s.ski.testBit k && !(decide (un = k))) := by
  rw [dp_clr_ski_ski, Nat.testBit_land, Nat.testBit_xor, testBit_u32, testBit_one_shift]
  simp [hk]

theorem dp_clr_ski_units (s : DpState) (un : Nat) : (dp_clr_ski s un).units = s.units := by
  simp only [dp_clr_ski]
  split_ifs <;> rfl

theorem dp_clr_ski_chi (s : DpState) (un : Nat) : (dp_clr_ski s un).chi = s.chi := by
  simp only [dp_clr_ski]
  split_ifs with h1 h2
  · rfl
  · exact (Option.isNone_iff_eq_none.mp h2).symm
  · rfl

/-! ### Scan lemmas for the AIO acknowledge -/

theorem findSkiAux_some {ski : Nat} :
    ∀ {fuel i j : Nat}, findSkiAux ski fuel i = some j →
      ski.testBit j = true ∧ i ≤ j ∧ j < i + fuel ∧
        ∀ k, i ≤ k → k < j → ski.testBit k = false := by
  intro fuel
  induction fuel with
  | zero => intro i j h; simp [findSkiAux] at h
  | succ f ih =>
      intro i j h
      by_cases hb : ski.testBit i = true
      · simp only [findSkiAux, hb, if_true] at h
        obtain rfl : i = j := by simpa using h
        exact ⟨hb, le_refl _, by omega, fun k hk1 hk2 => by omega⟩
      · have hb' : ski.testBit i = false := by simpa using hb
        simp only [findSkiAux, hb', if_false, Bool.false_eq_true] at h
        obtain ⟨h1, h2, h3, h4⟩ := ih h
        refine ⟨h1, by omega, by omega, fun k hk1 hk2 => ?_⟩
        rcases Nat.eq_or_lt_of_le hk1 with rfl | hlt
        · exact hb'
        · exact h4 k hlt hk2

theorem findSkiAux_none {ski : Nat} :
    ∀ {fuel i : Nat}, findSkiAux ski fuel i = none →
      ∀ k, i ≤ k → k < i + fuel → ski.testBit k = false := by
  intro fuel
  induction fuel with
  | zero => intro i h k hk1 hk2; omega
  | succ f ih =>
      intro i h k hk1 hk2
      by_cases hb : ski.testBit i = true
      · simp [findSkiAux, hb] at h
      · have hb' : ski.testBit i = false := by simpa using hb
        simp only [findSkiAux, hb', if_false, Bool.false_eq_true] at h
        rcases Nat.eq_or_lt_of_le hk1 with rfl | hlt
        · exact hb'
        · exact ih h k hlt (by omega)

theorem dp_numdr_le (c : Nat) : dp_numdr c ≤ 15 := by
  unfold dp_numdr
  split <;> decide

/-! ### C4: AIO acknowledge order -/

/-- C4: the acknowledge operation clears a pending controller-level
channel interrupt strictly before considering any seek interrupt,
returning its drive index with the seek mask untouched and the
device-interrupt-pending line still asserted when seek interrupts
remain; with no controller interrupt it clears the lowest-indexed
pending seek interrupt bit and returns that index; with neither it
returns drive 0 with no state change. -/
theorem dp_clr_int_priority (s : DpState) :
    (∀ iu, s.chi = some iu →
      (dp_clr_int s).2 = iu ∧ (dp_clr_int s).1.chi = none ∧
      (dp_clr_int s).1.ski = s.ski ∧ (dp_clr_int s).1.units = s.units ∧
      (s.ski ≠ 0 → (dp_clr_int s).1.inp = true)) ∧
    (s.chi = none →
      ∀ j, j < dp_numdr s.ctype → s.ski.testBit j = true →
        s.ski.testBit (dp_clr_int s).2 = true ∧
        (∀ k, k < (dp_clr_int s).2 → s.ski.testBit k = false) ∧
        (dp_clr_int s).1.ski.testBit (dp_clr_int s).2 = false ∧
        (∀ k, k < 32 → k ≠ (dp_clr_int s).2 →
          (dp_clr_int s).1.ski.testBit k = s.ski.testBit k) ∧
        (dp_clr_int s).1.chi = none) ∧
    (s.chi = none → (∀ k, k < dp_numdr s.ctype → s.ski.testBit k = false) →
      dp_clr_int s = (s, 0)) := by
  refine ⟨?_, ?_, ?_⟩
  · intro iu hchi
    by_cases hz : s.ski ≠ 0 <;> simp [dp_clr_int, hchi, hz]
  · intro hchi j hj hbit
    cases hfind : findSkiAux s.ski (dp_numdr s.ctype) 0 with
    | none =>
        have := findSkiAux_none hfind j (Nat.zero_le _) (by omega)
        simp [hbit] at this
    | some iu =>
        obtain ⟨h1, _, h3, h4⟩ := findSkiAux_some hfind
        have hiu32 : iu < 32 := by
          have := dp_numdr_le s.ctype
          omega
        simp only [dp_clr_int, hchi, hfind]
        refine ⟨h1, fun k hk => h4 k (Nat.zero_le _) hk, ?_, ?_, ?_⟩
        · rw [dp_clr_ski_testBit s iu iu hiu32]
          simp
        · intro k hk32 hkne
          rw [dp_clr_ski_testBit s iu k hk32]
          have : (decide (iu = k)) = false := by simp [Ne.symm hkne]
          simp [this]
        · rw [dp_clr_ski_chi]
          exact hchi
  · intro hchi hall
    cases hfind : findSkiAux s.ski (dp_numdr s.ctype) 0 with
    | none => simp [dp_clr_int, hchi, hfind]
    | some iu =>
        obtain ⟨h1, _, h3, _⟩ := findSkiAux_some hfind
        have := hall iu (by omega)
        simp [h1] at this

theorem dp_clr_int_priority_witness :
    sWit4.chi = some 3 ∧
    ((dp_clr_int sWit4).2 = 3 ∧ (dp_clr_int sWit4).1.chi = none ∧
      (dp_clr_int sWit4).1.ski = sWit4.ski ∧ (dp_clr_int sWit4).1.units = sWit4.units ∧
      (sWit4.ski ≠ 0 → (dp_clr_int sWit4).1.inp = true)) :=
  ⟨by decide, (dp_clr_int_priority sWit4).1 3 (by decide)⟩

/-! ### Field preservation lemmas for the scheduler primitives -/

theorem simActivate_ski (s : DpState) (i t : Nat) : (simActivate s i t).ski = s.ski := by
  unfold simActivate
  split <;> rfl

theorem setUcmd_ski (s : DpState) (i c : Nat) : (setUcmd s i c).ski = s.ski := rfl

theorem simActivate_units_other (s : DpState) {a b : Nat} (t : Nat) (h : b ≠ a) :
    (simActivate s a t).units b = s.units b := by
  unfold simActivate
  split
  · rfl
  · exact updU_other s _ h

theorem setUcmd_units_other (s : DpState) {a b : Nat} (c : Nat) (h : b ≠ a) :
    (setUcmd s a c).units b = s.units b := updU_other s _ h

theorem simActivate_inactive (s : DpState) (i t : Nat)
    (h : (s.units i).activeAt = none) :
    ((simActivate s i t).units i).activeAt = some t := by
  unfold simActivate simIsActive
  rw [h]
  simp [updU]

theorem setUcmd_activeAt (s : DpState) (i c j : Nat) :
    ((setUcmd s i c).units j).activeAt = (s.units j).activeAt := by
  unfold setUcmd updU
  by_cases h : j = i <;> simp [h]

theorem setUcmd_ucmd_same (s : DpState) (i c : Nat) :
    ((setUcmd s i c).units i).ucmd = c := by
  unfold setUcmd
  rw [updU_same]

/-! ### C3: the seek completion service -/

/-- C3 counterexample: at a concrete state with a controller
interrupt pending, the deferred seek completion is rescheduled after
dp_time × sectors/track (1 × 6 = 6 here), not after the inter-track
seek time × sectors/track (20 × 6 = 120) that the claim asks for
(the seek scheduling of the seek command body names that constant
perTrackTime). -/
theorem dps_svc_defer_delay_cx :
    ((dps_svc sC3 0).units (0 + DP_SEEK)).activeAt = some 6 ∧
    sC3.stime * (getGeo (sC3.units 0).dtype).sc = 120 ∧
    ((dps_svc sC3 0).units (0 + DP_SEEK)).activeAt ≠
      some (sC3.stime * (getGeo (sC3.units 0).dtype).sc) := by
  refine ⟨by decide, by decide, by decide⟩

/-- C3 (amended): when the seek completion timer of a drive fires
(the seek unit being idle): a plain SEEKING sub-state does nothing;
otherwise, with a controller channel interrupt pending, the seek unit
reschedules itself after interWordTime × sectorsPerTrack and switches
to the WAITING_TO_INTERRUPT sub-state; otherwise the seek interrupt
bit of the drive is set and device-interrupt-pending is asserted. -/
theorem dps_svc_cases (s : DpState) (un : Nat)
    (hinact : (s.units (un + DP_SEEK)).activeAt = none) :
    ((s.units (un + DP_SEEK)).ucmd = DSC_SEEK → dps_svc s un = s) ∧
    ((s.units (un + DP_SEEK)).ucmd ≠ DSC_SEEK → s.chi.isSome = true →
      ((dps_svc s un).units (un + DP_SEEK)).activeAt =
        some (s.time * (getGeo (s.units un).dtype).sc) ∧
      ((dps_svc s un).units (un + DP_SEEK)).ucmd = DSC_SEEKW) ∧
    ((s.units (un + DP_SEEK)).ucmd ≠ DSC_SEEK → s.chi.isSome = false →
      (dps_svc s un).ski.testBit un = true ∧ (dps_svc s un).inp = true) := by
  refine ⟨fun h => by simp [dps_svc, h], ?_, ?_⟩
  · intro hne hchi
    have hun : (s.units (un + DP_SEEK)).ucmd ≠ DSC_SEEK := hne
    simp only [dps_svc, hun, if_pos, hchi, ne_eq, not_false_eq_true, if_true]
    constructor
    · rw [setUcmd_activeAt]
      exact simActivate_inactive s _ _ hinact
    · exact setUcmd_ucmd_same _ _ _
  · intro hne hchi
    simp only [dps_svc, hne, ne_eq, not_false_eq_true, if_true, hchi,
      Bool.false_eq_true, if_false]
    constructor
    · simp [dp_set_ski, Nat.testBit_lor, testBit_one_shift]
    · rfl

theorem dps_svc_cases_witness :
    (sC3.units (0 + DP_SEEK)).activeAt = none ∧
    (((dps_svc sC3 0).units (0 + DP_SEEK)).activeAt =
        some (sC3.time * (getGeo (sC3.units 0).dtype).sc) ∧
      ((dps_svc sC3 0).units (0 + DP_SEEK)).ucmd = DSC_SEEKW) :=
  ⟨by decide, (dps_svc_cases sC3 0 (by decide)).2.1 (by decide) (by decide)⟩

/-! ### C2: the SIO knock-down pass -/

theorem knockOne_establish (ctl : Nat) (s : DpState) (i : Nat) (hi32 : i < 32)
    (hbit : s.ski.testBit i = true)
    (hinact : (s.units (i + DP_SEEK)).activeAt = none) :
    (knockOne ctl s i).ski.testBit i = false ∧
    ((knockOne ctl s i).units (i + DP_SEEK)).activeAt = some (ctl * 10) ∧
    ((knockOne ctl s i).units (i + DP_SEEK)).ucmd = DSC_SEEKW := by
  unfold knockOne
  simp only [hbit, if_true]
  refine ⟨?_, ?_, ?_⟩
  · rw [setUcmd_ski, simActivate_ski, dp_clr_ski_testBit s i i hi32]
    simp
  · rw [setUcmd_activeAt]
    apply simActivate_inactive
    rw [dp_clr_ski_units]
    exact hinact
  · exact setUcmd_ucmd_same _ _ _

theorem knockOne_preserves (ctl : Nat) (s : DpState) (i j : Nat)
    (h1 : s.ski.testBit i = false)
    (h2 : (s.units (i + DP_SEEK)).activeAt = some (ctl * 10))
    (h3 : (s.units (i + DP_SEEK)).ucmd = DSC_SEEKW) :
    (knockOne ctl s j).ski.testBit i = false ∧
    ((knockOne ctl s j).units (i + DP_SEEK)).activeAt = some (ctl * 10) ∧
    ((knockOne ctl s j).units (i + DP_SEEK)).ucmd = DSC_SEEKW := by
  by_cases hij : j = i
  · subst hij
    have hno : knockOne ctl s j = s := by
      simp [knockOne, h1]
    rw [hno]
    exact ⟨h1, h2, h3⟩
  · unfold knockOne
    by_cases hb : s.ski.testBit j = true
    · have hu : i + DP_SEEK ≠ j + DP_SEEK := fun h => hij (by omega)
      simp only [hb, if_true]
      refine ⟨?_, ?_, ?_⟩
      · rw [setUcmd_ski, simActivate_ski, dp_clr_ski_ski, Nat.testBit_land, h1,
          Bool.false_and]
      · rw [setUcmd_units_other _ _ hu, simActivate_units_other _ _ hu, dp_clr_ski_units]
        exact h2
      · rw [setUcmd_units_other _ _ hu, simActivate_units_other _ _ hu, dp_clr_ski_units]
        exact h3
    · have hb' : s.ski.testBit j = false := by simpa using hb
      simp only [hb', Bool.false_eq_true, if_false]
      exact ⟨h1, h2, h3⟩

theorem knockOne_pre (ctl : Nat) (s : DpState) (i j : Nat) (hi32 : i < 32) (hij : j ≠ i)
    (hbit : s.ski.testBit i = true)
    (hinact : (s.units (i + DP_SEEK)).activeAt = none) :
    (knockOne ctl s j).ski.testBit i = true ∧
    ((knockOne ctl s j).units (i + DP_SEEK)).activeAt = none := by
  unfold knockOne
  by_cases hb : s.ski.testBit j = true
  · have hu : i + DP_SEEK ≠ j + DP_SEEK := fun h => hij (by omega)
    simp only [hb, if_true]
    constructor
    · rw [setUcmd_ski, simActivate_ski, dp_clr_ski_testBit s j i hi32]
      simp [hbit, hij]
    · rw [setUcmd_units_other _ _ hu, simActivate_units_other _ _ hu, dp_clr_ski_units]
      exact hinact
  · have hb' : s.ski.testBit j = false := by simpa using hb
    simp only [hb', Bool.false_eq_true, if_false]
    exact ⟨hbit, hinact⟩

theorem knockDownAux_preserves (ctl i : Nat) (l : List Nat) :
    ∀ s : DpState,
      s.ski.testBit i = false →
      (s.units (i + DP_SEEK)).activeAt = some (ctl * 10) →
      (s.units (i + DP_SEEK)).ucmd = DSC_SEEKW →
      (knockDownAux ctl l s).ski.testBit i = false ∧
      ((knockDownAux ctl l s).units (i + DP_SEEK)).activeAt = some (ctl * 10) ∧
      ((knockDownAux ctl l s).units (i + DP_SEEK)).ucmd = DSC_SEEKW := by
  induction l with
  | nil => intro s h1 h2 h3; exact ⟨h1, h2, h3⟩
  | cons j rest ih =>
      intro s h1 h2 h3
      obtain ⟨g1, g2, g3⟩ := knockOne_preserves ctl s i j h1 h2 h3
      exact ih _ g1 g2 g3

theorem knockDownAux_knocks (ctl i : Nat) (hi32 : i < 32) (l : List Nat) :
    ∀ s : DpState, i ∈ l →
      s.ski.testBit i = true →
      (s.units (i + DP_SEEK)).activeAt = none →
      (knockDownAux ctl l s).ski.testBit i = false ∧
      ((knockDownAux ctl l s).units (i + DP_SEEK)).activeAt = some (ctl * 10) ∧
      ((knockDownAux ctl l s).units (i + DP_SEEK)).ucmd = DSC_SEEKW := by
  induction l with
  | nil => intro s hmem; simp at hmem
  | cons j rest ih =>
      intro s hmem hbit hinact
      by_cases hij : j = i
      · subst hij
        obtain ⟨g1, g2, g3⟩ := knockOne_establish ctl s j hi32 hbit hinact
        exact knockDownAux_preserves ctl j rest _ g1 g2 g3
      · have hmem' : i ∈ rest := by
          rcases List.mem_cons.mp hmem with h | h
          · exact absurd h.symm hij
          · exact h
        obtain ⟨g1, g2⟩ := knockOne_pre ctl s i j hi32 hij hbit hinact
        exact ih _ hmem' g1 g2

/-- C2: when an SIO passes both admission checks, every other drive
with a pending seek interrupt has the bit knocked down: cleared, the
seek unit rescheduled ten channel-control-time units out, and its
sub-state set to waiting-to-interrupt. -/
theorem sio_knockdown (ctl : Nat) (s : DpState) (un : Nat)
    (hv : dp_valid_un s un = true)
    (hchi : s.chi.isSome = false)
    (hski : s.ski.testBit un = false)
    (i : Nat) (hi : i < dp_numdr s.ctype)
    (hbit : s.ski.testBit i = true)
    (hinact : (s.units (i + DP_SEEK)).activeAt = none) :
    (dp_disp ctl s .sio un).1.ski.testBit i = false ∧
    ((dp_disp ctl s .sio un).1.units (i + DP_SEEK)).activeAt = some (ctl * 10) ∧
    ((dp_disp ctl s .sio un).1.units (i + DP_SEEK)).ucmd = DSC_SEEKW := by
  have hcond : (s.chi.isSome || s.ski.testBit un) = false := by simp [hchi, hski]
  have hi32 : i < 32 := by
    have := dp_numdr_le s.ctype
    omega
  have hk := knockDownAux_knocks ctl i hi32 (List.range (dp_numdr s.ctype)) s
    (List.mem_range.mpr hi) hbit hinact
  have hun15 : un ≤ 15 := by
    simp only [dp_valid_un, DP_CONT, Bool.or_eq_true, Bool.and_eq_true,
      decide_eq_true_eq] at hv
    have := dp_numdr_le s.ctype
    rcases hv with ⟨h, _⟩ | ⟨h, _⟩ <;> omega
  have hne : i + DP_SEEK ≠ un := by
    simp only [DP_SEEK, DP_CONT]
    omega
  simp only [dp_disp, hv, not_true_eq_false, if_false, hcond, Bool.false_eq_true,
    if_false, knockDown]
  by_cases hidle : dp_tio_status s un &&& (DVS_CST ||| DVS_DST) = 0
  · simp only [hidle, if_true]
    rw [simActivate_ski, setUcmd_ski, simActivate_units_other _ _ hne,
      setUcmd_units_other _ _ hne]
    exact hk
  · simp only [hidle, if_false]
    exact hk

theorem sio_knockdown_witness :
    dp_valid_un sWit2 0 = true ∧ sWit2.chi.isSome = false ∧
    sWit2.ski.testBit 0 = false ∧ (1 < dp_numdr sWit2.ctype) ∧
    sWit2.ski.testBit 1 = true ∧ (sWit2.units (1 + DP_SEEK)).activeAt = none ∧
    ((dp_disp 1 sWit2 .sio 0).1.ski.testBit 1 = false ∧
      ((dp_disp 1 sWit2 .sio 0).1.units (1 + DP_SEEK)).activeAt = some (1 * 10) ∧
      ((dp_disp 1 sWit2 .sio 0).1.units (1 + DP_SEEK)).ucmd = DSC_SEEKW) :=
  ⟨by decide, by decide, by decide, by decide, by decide, by decide,
    sio_knockdown 1 sWit2 0 (by decide) (by decide) (by decide) 1 (by decide)
      (by decide) (by decide)⟩

/-! ### More field preservation lemmas -/

theorem simActivate_flags (s : DpState) (i t : Nat) : (simActivate s i t).flags = s.flags := by
  unfold simActivate
  split <;> rfl

theorem setUcmd_flags (s : DpState) (i c : Nat) : (setUcmd s i c).flags = s.flags := rfl

theorem setUcmd_uda (s : DpState) (i c j : Nat) :
    ((setUcmd s i c).units j).uda = (s.units j).uda := by
  unfold setUcmd updU
  by_cases h : j = i <;> simp [h]

theorem simActivate_uda (s : DpState) (i t j : Nat) :
    ((simActivate s i t).units j).uda = (s.units j).uda := by
  unfold simActivate
  split
  · rfl
  · unfold updU
    by_cases h : j = i <;> simp [h]

theorem testBit_ffff (j : Nat) : (0xFFFF : Nat).testBit j = decide (j < 16) := by
  have h : (0xFFFF : Nat) = 2 ^ 16 - 1 := by norm_num
  rw [h, Nat.testBit_two_pow_sub_one]

theorem and_ffff_small {t : Nat} (h : t < 65536) : t &&& 0xFFFF = t := by
  have h16 : (0xFFFF : Nat) = 2 ^ 16 - 1 := by norm_num
  rw [h16, Nat.and_pow_two_sub_one_eq_mod, Nat.mod_eq_of_lt h]

theorem DPA_GETCY_le (x : Nat) : DPA_GETCY x ≤ 0x3FF := Nat.and_le_right

/-- Writing the clamped difference into the DIFF field makes the
field read back exactly the clamped difference, whatever the other
flag bits were. -/
theorem diffField_update (f t : Nat) :
    diffField ((f &&& (U32 ^^^ DPF_DIFF)) ||| ((t &&& DPF_M_DIFF) <<< DPF_V_DIFF)) =
      t &&& DPF_M_DIFF := by
  apply Nat.eq_of_testBit_eq
  intro j
  simp only [diffField, DPF_V_DIFF, DPF_M_DIFF, DPF_DIFF, Nat.testBit_land,
    Nat.testBit_shiftRight, Nat.testBit_lor, Nat.testBit_shiftLeft, Nat.testBit_xor,
    testBit_u32, testBit_ffff]
  by_cases hj : j < 16
  · have h1 : (16 : Nat) ≤ 16 + j := by omega
    have h2 : 16 + j - 16 = j := by omega
    have h3 : (16 + j < 32) ↔ (j < 16) := by omega
    simp [h1, h2, hj, h3]
  · have h2 : 16 + j - 16 = j := by omega
    simp [h2, hj]

theorem if_zero_one_eq_max (t : Nat) : (if t = 0 then 1 else t) = max 1 t := by
  rcases Nat.eq_zero_or_pos t with rfl | h
  · simp
  · rw [if_neg (by omega), Nat.max_eq_right h]

/-! ### The shared seek/recalibrate tail -/

theorem dpSeekTail_uda (env : ChanEnv) (s : DpState) (un da : Nat) :
    ((dpSeekTail env s un da).units un).uda = da := by
  simp only [dpSeekTail, dpToEnd, simActivate_uda, setUcmd_uda, updU_same]

theorem dpSeekTail_flags (env : ChanEnv) (s : DpState) (un da : Nat) :
    (dpSeekTail env s un da).flags =
      (s.flags &&& (U32 ^^^ DPF_DIFF)) |||
        ((((DPA_GETCY (s.units un).uda : Int) - (DPA_GETCY da : Int)).natAbs &&&
          DPF_M_DIFF) <<< DPF_V_DIFF) := by
  simp only [dpSeekTail, dpToEnd, simActivate_flags, setUcmd_flags]
  rfl

theorem dpSeekTail_sched (env : ChanEnv) (s : DpState) (un da : Nat)
    (hinact : (s.units (un + DP_SEEK)).activeAt = none) :
    ((dpSeekTail env s un da).units (un + DP_SEEK)).activeAt =
      some
        ((max 1 ((DPA_GETCY (s.units un).uda : Int) - (DPA_GETCY da : Int)).natAbs) *
          s.stime) := by
  have hne : un + DP_SEEK ≠ un := by
    simp only [DP_SEEK, DP_CONT]
    omega
  simp only [dpSeekTail, dpToEnd]
  rw [simActivate_units_other _ _ hne, setUcmd_units_other _ _ hne, setUcmd_activeAt,
    ← if_zero_one_eq_max]
  apply simActivate_inactive
  rw [updU_other _ _ hne]
  exact hinact

theorem dpSeekTail_subst (env : ChanEnv) (s : DpState) (un da : Nat) :
    ((dpSeekTail env s un da).units (un + DP_SEEK)).ucmd =
      (if env.cch then DSC_SEEK else (s.units un).ucmd &&& 0x80) := by
  have hne : un + DP_SEEK ≠ un := by
    simp only [DP_SEEK, DP_CONT]
    omega
  simp only [dpSeekTail, dpToEnd]
  rw [simActivate_units_other _ _ hne, setUcmd_units_other _ _ hne, setUcmd_ucmd_same]
  congr 1
  simp [updU]

theorem dpSeekTail_spec4 (env : ChanEnv) (s1 : DpState) (un da : Nat)
    (hinact : (s1.units (un + DP_SEEK)).activeAt = none) :
    ((dpSeekTail env s1 un da).units un).uda = da ∧
    diffField (dpSeekTail env s1 un da).flags =
      (((DPA_GETCY (s1.units un).uda : Int) - (DPA_GETCY da : Int)).natAbs &&&
        DPF_M_DIFF) ∧
    ((dpSeekTail env s1 un da).units (un + DP_SEEK)).activeAt =
      some ((max 1 ((DPA_GETCY (s1.units un).uda : Int) -
        (DPA_GETCY da : Int)).natAbs) * s1.stime) ∧
    ((dpSeekTail env s1 un da).units (un + DP_SEEK)).ucmd =
      (if env.cch then DSC_SEEK else (s1.units un).ucmd &&& 0x80) :=
  ⟨dpSeekTail_uda env s1 un da, by rw [dpSeekTail_flags, diffField_update],
    dpSeekTail_sched env s1 un da hinact, dpSeekTail_subst env s1 un da⟩

/-! ### C9: recalibrate -/

/-- C9: a recalibrate (or recalibrate-and-interrupt) body zeroes the
stored disk address and leaves the cylinder number the unit was on in
the 16-bit difference field of the status flags register. -/
theorem recal_resets_address (env : ChanEnv) (s : DpState) (un : Nat)
    (hcmd : (s.units un).ucmd = DPS_RECAL ∨ (s.units un).ucmd = DPS_RECALI) :
    ((dp_svc env s un).units un).uda = 0 ∧
    diffField (dp_svc env s un).flags = DPA_GETCY (s.units un).uda := by
  have hstep : dp_svc env s un = dpSeekTail env s un 0 := by
    rcases hcmd with h | h <;>
      simp [dp_svc, dpCmdStep, h, DPS_RECAL, DPS_RECALI, DPS_INIT, DPS_END, DPS_SEEK,
        DPS_SEEKI, DPS_SENSE, DPS_WRITE, DPS_WHDR, DPS_CHECK, DPS_READ, DPS_RHDR,
        DPS_TEST]
  rw [hstep]
  refine ⟨dpSeekTail_uda env s un 0, ?_⟩
  rw [dpSeekTail_flags]
  have h0 : DPA_GETCY 0 = 0 := by decide
  rw [h0]
  simp only [Nat.cast_zero, sub_zero, Int.natAbs_ofNat]
  rw [diffField_update]
  exact and_ffff_small (lt_of_le_of_lt (DPA_GETCY_le _) (by norm_num))

theorem recal_resets_address_witness :
    (sWit9.units 0).ucmd = DPS_RECAL ∧
    (((dp_svc {} sWit9 0).units 0).uda = 0 ∧
      diffField (dp_svc {} sWit9 0).flags = DPA_GETCY (sWit9.units 0).uda) :=
  ⟨by decide, recal_resets_address {} sWit9 0 (Or.inl (by decide))⟩

/-! ### C6: the seek command body -/

/-- C6: a seek or seek-and-interrupt body whose four address bytes
arrive with zero byte count exactly on the fourth byte stores the
absolute cylinder difference, clamped to 16 bits, in the DIFF field
of the status flags register, stores the new disk address in the
unit, schedules the seek completion timer after max(1, difference) ×
the per-track seek time, and sets the seek sub-state to plain seeking
under command chaining, else derives it from the interrupt bit of the
command code. -/
theorem seek_body_spec (env : ChanEnv) (s : DpState) (un : Nat)
    (b0 b1 b2 b3 : Nat) (rest : List (Nat × Nat))
    (hcmd : (s.units un).ucmd = DPS_SEEK ∨ (s.units un).ucmd = DPS_SEEKI)
    (hrd : env.rdB = (0, b0) :: (0, b1) :: (0, b2) :: (CHS_ZBC, b3) :: rest)
    (hinact : (s.units (un + DP_SEEK)).activeAt = none) :
    ((dp_svc env s un).units un).uda =
      ((b0 <<< 24) ||| (b1 <<< 16) ||| (b2 <<< 8) ||| b3) ∧
    diffField (dp_svc env s un).flags =
      (((DPA_GETCY (s.units un).uda : Int) -
        (DPA_GETCY ((b0 <<< 24) ||| (b1 <<< 16) ||| (b2 <<< 8) ||| b3) : Int)).natAbs &&&
        DPF_M_DIFF) ∧
    ((dp_svc env s un).units (un + DP_SEEK)).activeAt =
      some ((max 1 ((DPA_GETCY (s.units un).uda : Int) -
        (DPA_GETCY ((b0 <<< 24) ||| (b1 <<< 16) ||| (b2 <<< 8) ||| b3) : Int)).natAbs) *
        s.stime) ∧
    ((dp_svc env s un).units (un + DP_SEEK)).ucmd =
      (if env.cch then DSC_SEEK else (s.units un).ucmd &&& 0x80) := by
  have hloop : rdBytesLoop 4 0 0 [] env.rdB =
      .ok ([b0, b1, b2, b3], 4, CHS_ZBC, rest) := by
    rw [hrd]
    rfl
  have hstep : dp_svc env s un = dpSeekBody env s un := by
    rcases hcmd with h | h <;>
      simp [dp_svc, dpCmdStep, h, DPS_SEEK, DPS_SEEKI, DPS_INIT, DPS_END]
  rw [hstep]
  unfold dpSeekBody
  rw [hloop]
  simp only [List.length_cons, List.length_nil, Nat.sub_self, List.replicate,
    List.append_nil, List.getD_cons_zero, List.getD_cons_succ, ne_eq,
    not_true_eq_false, or_self, false_and, if_false, Nat.lt_irrefl, ite_false]
  by_cases hpg : b0 &&& 0xFC = 0
  · simp only [hpg, not_true_eq_false, ite_false, if_false]
    exact dpSeekTail_spec4 env s un _ hinact
  · simp only [hpg, not_false_eq_true, ite_true, if_true]
    exact dpSeekTail_spec4 env { s with flags := s.flags ||| DPF_PGE } un _ hinact

theorem seek_body_spec_witness :
    (sWit6.units 0).ucmd = DPS_SEEK ∧
    envWit6.rdB = (0, 0) :: (0, 10) :: (0, 2) :: (CHS_ZBC, 3) :: [] ∧
    (sWit6.units (0 + DP_SEEK)).activeAt = none ∧
    (((dp_svc envWit6 sWit6 0).units 0).uda =
        ((0 <<< 24) ||| (10 <<< 16) ||| (2 <<< 8) ||| 3) ∧
      diffField (dp_svc envWit6 sWit6 0).flags =
        (((DPA_GETCY (sWit6.units 0).uda : Int) -
          (DPA_GETCY ((0 <<< 24) ||| (10 <<< 16) ||| (2 <<< 8) ||| 3) : Int)).natAbs &&&
          DPF_M_DIFF) ∧
      ((dp_svc envWit6 sWit6 0).units (0 + DP_SEEK)).activeAt =
        some ((max 1 ((DPA_GETCY (sWit6.units 0).uda : Int) -
          (DPA_GETCY ((0 <<< 24) ||| (10 <<< 16) ||| (2 <<< 8) ||| 3) : Int)).natAbs) *
          sWit6.stime) ∧
      ((dp_svc envWit6 sWit6 0).units (0 + DP_SEEK)).ucmd =
        (if envWit6.cch then DSC_SEEK else (sWit6.units 0).ucmd &&& 0x80)) :=
  ⟨by decide, by decide, by decide,
    seek_body_spec envWit6 sWit6 0 0 10 2 3 [] (Or.inl (by decide)) (by decide)
      (by decide)⟩

/-! ### C8: write header completion -/

/-- C8 (evidence of the source defect): a write header whose channel
transfer completes with zero byte count at exactly the expected eight
bytes does not fall through to the END state: the write-header case
of the source switch has no break after dp_end_sec, so execution
continues into the write-check body, which reads the stored sector,
miscompares the next channel byte, sets the write-check flag and
forces unusual end; the unit is left unscheduled and never enters
END. -/
theorem whdr_fallthrough_bug :
    (dp_svc envW8 sW8 0).flags.testBit DPF_V_WCHK = true ∧
    ((dp_svc envW8 sW8 0).units 0).ucmd ≠ DPS_END ∧
    ((dp_svc envW8 sW8 0).units 0).activeAt = none ∧
    (dp_svc envW8 sW8 0).uend = true := by
  refine ⟨by decide, by decide, by decide, by decide⟩

/-! ### C10: write check and the write lock -/

theorem setUcmd_ro (s : DpState) (i c j : Nat) :
    ((setUcmd s i c).units j).ro = (s.units j).ro := by
  unfold setUcmd updU
  by_cases h : j = i <;> simp [h]

theorem setUcmd_dtype (s : DpState) (i c j : Nat) :
    ((setUcmd s i c).units j).dtype = (s.units j).dtype := by
  unfold setUcmd updU
  by_cases h : j = i <;> simp [h]

theorem checkLoop_step_mism (buf : Nat → Nat) (fuel i b : Nat) (l : List (Nat × Nat))
    (hb : b ≠ (buf (i >>> 2) >>> (24 - (i &&& 0x3) * 8)) &&& 0xFF) :
    checkLoop buf (fuel + 1) i 0 ((0, b) :: l) = .mism := by
  unfold checkLoop
  simp [chanRd, CHS_IFERR, CHS_ZBC, CHS_ERR, hb]

theorem dpCmdStep_check (env : ChanEnv) (s : DpState) (un : Nat)
    (h : (s.units un).ucmd = DPS_CHECK) :
    dp_svc env s un = dpCheckBody env s un env.rdB := by
  simp [dp_svc, dpCmdStep, h, DPS_CHECK, DPS_INIT, DPS_END, DPS_SEEK, DPS_SEEKI,
    DPS_RECAL, DPS_RECALI, DPS_SENSE, DPS_WRITE, DPS_WHDR]

theorem dpCmdStep_write (env : ChanEnv) (s : DpState) (un : Nat)
    (h : (s.units un).ucmd = DPS_WRITE) :
    dp_svc env s un = dpWriteBody env s un := by
  simp [dp_svc, dpCmdStep, h, DPS_CHECK, DPS_INIT, DPS_END, DPS_SEEK, DPS_SEEKI,
    DPS_RECAL, DPS_RECALI, DPS_SENSE, DPS_WRITE, DPS_WHDR]

theorem dpCmdStep_whdr (env : ChanEnv) (s : DpState) (un : Nat)
    (h : (s.units un).ucmd = DPS_WHDR) :
    dp_svc env s un = dpWhdrBody env s un := by
  simp [dp_svc, dpCmdStep, h, DPS_CHECK, DPS_INIT, DPS_END, DPS_SEEK, DPS_SEEKI,
    DPS_RECAL, DPS_RECALI, DPS_SENSE, DPS_WRITE, DPS_WHDR]

theorem dpWriteBody_wplock (env : ChanEnv) (s : DpState) (un : Nat)
    (h : (s.units un).ro = true) :
    dpWriteBody env s un = chanUen { s with flags := s.flags ||| DPF_WPE } := by
  unfold dpWriteBody
  rw [h]
  simp

theorem dpWhdrBody_wplock (env : ChanEnv) (s : DpState) (un : Nat)
    (h : (s.units un).ro = true) :
    dpWhdrBody env s un = chanUen { s with flags := s.flags ||| DPF_WPE } := by
  unfold dpWhdrBody
  rw [h]
  simp

/-- C10: the write-check command performs no write-protect check: on
a write-locked unit with a valid disk address it proceeds to read the
stored sector into the transfer buffer and compare the channel bytes
(here flagging a write-check error on a first-byte mismatch) and
never touches the write-protect error flag; write and write header on
the same unit fail at once with the write-protect flag and unusual
end. -/
theorem check_ignores_write_lock (env : ChanEnv) (s : DpState) (un : Nat)
    (b : Nat) (rest : List (Nat × Nat))
    (hro : (s.units un).ro = true)
    (hval : dp_inv_ad (s.units un).dtype (s.units un).uda = false)
    (hrd : env.rdB = (0, b) :: rest)
    (hb : b ≠ (s.disk (dp_da (s.units un).dtype (s.units un).uda) >>> 24) &&& 0xFF) :
    (∀ i, i < DP_WDSC →
      (dp_svc env (setUcmd s un DPS_CHECK) un).buf i =
        s.disk (dp_da (s.units un).dtype (s.units un).uda + i)) ∧
    (dp_svc env (setUcmd s un DPS_CHECK) un).flags.testBit DPF_V_WPE =
      s.flags.testBit DPF_V_WPE ∧
    (dp_svc env (setUcmd s un DPS_CHECK) un).flags.testBit DPF_V_WCHK = true ∧
    (dp_svc env (setUcmd s un DPS_WRITE) un).flags.testBit DPF_V_WPE = true ∧
    (dp_svc env (setUcmd s un DPS_WRITE) un).uend = true ∧
    (dp_svc env (setUcmd s un DPS_WHDR) un).flags.testBit DPF_V_WPE = true ∧
    (dp_svc env (setUcmd s un DPS_WHDR) un).uend = true := by
  have hinv : dp_inv_ad ((setUcmd s un DPS_CHECK).units un).dtype
      ((setUcmd s un DPS_CHECK).units un).uda = false := by
    rw [setUcmd_dtype, setUcmd_uda]
    exact hval
  have hrun : dp_svc env (setUcmd s un DPS_CHECK) un =
      { (dp_inc_ad_u (dp_read (setUcmd s un DPS_CHECK)
          (dp_da (s.units un).dtype (s.units un).uda)) un).1 with
        flags := (dp_inc_ad_u (dp_read (setUcmd s un DPS_CHECK)
          (dp_da (s.units un).dtype (s.units un).uda)) un).1.flags ||| DPF_WCHK,
        uend := true } := by
    rw [dpCmdStep_check env _ un (setUcmd_ucmd_same _ _ _)]
    unfold dpCheckBody
    rw [hrd]
    simp only [hinv, Bool.false_eq_true, if_false, setUcmd_dtype, setUcmd_uda]
    rw [show DP_WDSC * 4 = 1023 + 1 from by norm_num [DP_WDSC]]
    have hb2 : b ≠ ((dp_read (setUcmd s un DPS_CHECK)
        (dp_da (s.units un).dtype (s.units un).uda)).buf (0 >>> 2) >>>
          (24 - (0 &&& 0x3) * 8)) &&& 0xFF := by
      simpa [dp_read] using hb
    rw [checkLoop_step_mism _ 1023 0 b rest hb2]
    simp only [hval, Bool.false_eq_true, if_false]
    rfl
  have hXbuf : ∀ i, i < DP_WDSC →
      ((dp_inc_ad_u (dp_read (setUcmd s un DPS_CHECK)
        (dp_da (s.units un).dtype (s.units un).uda)) un).1).buf i =
        s.disk (dp_da (s.units un).dtype (s.units un).uda + i) := by
    intro i hi
    simp [dp_inc_ad_u, updU, dp_read, setUcmd, hi]
  have hXflags : ((dp_inc_ad_u (dp_read (setUcmd s un DPS_CHECK)
      (dp_da (s.units un).dtype (s.units un).uda)) un).1).flags = s.flags := by
    simp [dp_inc_ad_u, updU, dp_read, setUcmd]
  have hrunw : dp_svc env (setUcmd s un DPS_WRITE) un =
      chanUen { setUcmd s un DPS_WRITE with
        flags := (setUcmd s un DPS_WRITE).flags ||| DPF_WPE } := by
    rw [dpCmdStep_write env _ un (setUcmd_ucmd_same _ _ _)]
    exact dpWriteBody_wplock env _ un (by rw [setUcmd_ro]; exact hro)
  have hrunh : dp_svc env (setUcmd s un DPS_WHDR) un =
      chanUen { setUcmd s un DPS_WHDR with
        flags := (setUcmd s un DPS_WHDR).flags ||| DPF_WPE } := by
    rw [dpCmdStep_whdr env _ un (setUcmd_ucmd_same _ _ _)]
    exact dpWhdrBody_wplock env _ un (by rw [setUcmd_ro]; exact hro)
  refine ⟨?_, ?_, ?_, ?_, ?_, ?_, ?_⟩
  · intro i hi
    rw [hrun]
    exact hXbuf i hi
  · rw [hrun]
    show ((dp_inc_ad_u (dp_read (setUcmd s un DPS_CHECK)
        (dp_da (s.units un).dtype (s.units un).uda)) un).1.flags |||
      DPF_WCHK).testBit DPF_V_WPE = s.flags.testBit DPF_V_WPE
    rw [hXflags, Nat.testBit_lor]
    have hfw : DPF_WCHK.testBit DPF_V_WPE = false := by decide
    rw [hfw, Bool.or_false]
  · rw [hrun]
    show ((dp_inc_ad_u (dp_read (setUcmd s un DPS_CHECK)
        (dp_da (s.units un).dtype (s.units un).uda)) un).1.flags |||
      DPF_WCHK).testBit DPF_V_WCHK = true
    rw [Nat.testBit_lor]
    have hfw : DPF_WCHK.testBit DPF_V_WCHK = true := by decide
    rw [hfw, Bool.or_true]
  · rw [hrunw]
    show ((setUcmd s un DPS_WRITE).flags ||| DPF_WPE).testBit DPF_V_WPE = true
    rw [Nat.testBit_lor]
    have hfw : DPF_WPE.testBit DPF_V_WPE = true := by decide
    rw [hfw, Bool.or_true]
  · rw [hrunw]
    rfl
  · rw [hrunh]
    show ((setUcmd s un DPS_WHDR).flags ||| DPF_WPE).testBit DPF_V_WPE = true
    rw [Nat.testBit_lor]
    have hfw : DPF_WPE.testBit DPF_V_WPE = true := by decide
    rw [hfw, Bool.or_true]
  · rw [hrunh]
    rfl

theorem check_ignores_write_lock_witness :
    (sWit10.units 0).ro = true ∧
    dp_inv_ad (sWit10.units 0).dtype (sWit10.units 0).uda = false ∧
    envWit10.rdB = (0, 5) :: [] ∧
    ((∀ i, i < DP_WDSC →
        (dp_svc envWit10 (setUcmd sWit10 0 DPS_CHECK) 0).buf i =
          sWit10.disk (dp_da (sWit10.units 0).dtype (sWit10.units 0).uda + i)) ∧
      (dp_svc envWit10 (setUcmd sWit10 0 DPS_CHECK) 0).flags.testBit DPF_V_WPE =
        sWit10.flags.testBit DPF_V_WPE ∧
      (dp_svc envWit10 (setUcmd sWit10 0 DPS_CHECK) 0).flags.testBit DPF_V_WCHK = true ∧
      (dp_svc envWit10 (setUcmd sWit10 0 DPS_WRITE) 0).flags.testBit DPF_V_WPE = true ∧
      (dp_svc envWit10 (setUcmd sWit10 0 DPS_WRITE) 0).uend = true ∧
      (dp_svc envWit10 (setUcmd sWit10 0 DPS_WHDR) 0).flags.testBit DPF_V_WPE = true ∧
      (dp_svc envWit10 (setUcmd sWit10 0 DPS_WHDR) 0).uend = true) :=
  ⟨by decide, by decide, by decide,
    check_ignores_write_lock envWit10 sWit10 0 5 [] (by decide) (by decide) (by decide)
      (by decide)⟩

/-! ### C5: address increment arithmetic -/

theorem testBit_1023 (j : Nat) : (0x3FF : Nat).testBit j = decide (j < 10) := by
  have h : (0x3FF : Nat) = 2 ^ 10 - 1 := by norm_num
  rw [h, Nat.testBit_two_pow_sub_one]

theorem testBit_31 (j : Nat) : (0x1F : Nat).testBit j = decide (j < 5) := by
  have h : (0x1F : Nat) = 2 ^ 5 - 1 := by norm_num
  rw [h, Nat.testBit_two_pow_sub_one]

theorem DPA_GETCY_pack {cy hd sc : Nat} (hc : cy < 1024) (hh : hd < 32) (hs : sc < 32) :
    DPA_GETCY ((cy <<< DPA_V_CY) ||| (hd <<< DPA_V_HD) ||| sc) = cy := by
  apply Nat.eq_of_testBit_eq
  intro j
  simp only [DPA_GETCY, DPA_V_CY, DPA_V_HD, DPA_M_CY, Nat.testBit_land,
    Nat.testBit_shiftRight, Nat.testBit_lor, Nat.testBit_shiftLeft, testBit_1023]
  have e1 : 16 + j - 16 = j := by omega
  have e2 : 16 + j - 8 = 8 + j := by omega
  have e3 : hd.testBit (8 + j) = false := testBit_small (by omega : hd < 2 ^ 5) (by omega)
  have e4 : sc.testBit (16 + j) = false := testBit_small (by omega : sc < 2 ^ 5) (by omega)
  simp only [e1, e2, e3, e4, ge_iff_le, Nat.le_add_right, decide_True, Bool.true_and,
    Bool.and_false, Bool.or_false]
  by_cases hj : j < 10
  · simp [hj, show (8 : Nat) ≤ 16 + j by omega]
  · have hcy : cy.testBit j = false := testBit_small (show cy < 2 ^ 10 by omega) (by omega)
    simp [hj, hcy]

theorem DPA_GETHD_pack {cy hd sc : Nat} (_hc : cy < 1024) (hh : hd < 32) (hs : sc < 32) :
    DPA_GETHD ((cy <<< DPA_V_CY) ||| (hd <<< DPA_V_HD) ||| sc) = hd := by
  apply Nat.eq_of_testBit_eq
  intro j
  simp only [DPA_GETHD, DPA_V_CY, DPA_V_HD, DPA_M_HD, Nat.testBit_land,
    Nat.testBit_shiftRight, Nat.testBit_lor, Nat.testBit_shiftLeft, testBit_31]
  have e1 : 8 + j - 8 = j := by omega
  have e2 : sc.testBit (8 + j) = false := testBit_small (by omega : sc < 2 ^ 5) (by omega)
  simp only [e1, e2, ge_iff_le, Nat.le_add_right, decide_True, Bool.true_and,
    Bool.or_false]
  by_cases hj : j < 5
  · have e3 : ¬ (16 : Nat) ≤ 8 + j := by omega
    simp [hj, e3]
  · have e4 : hd.testBit j = false := testBit_small (by omega : hd < 2 ^ 5) (by omega)
    simp [hj, e4]

theorem DPA_GETSC_pack {cy hd sc : Nat} (_hc : cy < 1024) (_hh : hd < 32) (hs : sc < 32) :
    DPA_GETSC ((cy <<< DPA_V_CY) ||| (hd <<< DPA_V_HD) ||| sc) = sc := by
  apply Nat.eq_of_testBit_eq
  intro j
  simp only [DPA_GETSC, DPA_V_SC, DPA_V_CY, DPA_V_HD, DPA_M_SC, Nat.shiftRight_zero,
    Nat.testBit_land, Nat.testBit_lor, Nat.testBit_shiftLeft, testBit_31]
  by_cases hj : j < 5
  · have e1 : ¬ (16 : Nat) ≤ j := by omega
    have e2 : ¬ (8 : Nat) ≤ j := by omega
    simp [hj, e1, e2]
  · have e3 : sc.testBit j = false := testBit_small (by omega : sc < 2 ^ 5) (by omega)
    simp [hj, e3]

theorem geo_bounds : ∀ d : Nat, d < 8 →
    (getGeo d).cy ≤ 1023 ∧ 5 ≤ (getGeo d).hd ∧ (getGeo d).hd ≤ 31 ∧
      6 ≤ (getGeo d).sc ∧ (getGeo d).sc ≤ 17 := by decide

theorem dp_inc_ad_step (dtype cy hd sc : Nat) (hd8 : dtype < 8)
    (hc : cy < 1024) (hh : hd < (getGeo dtype).hd) (hs : sc < (getGeo dtype).sc) :
    dp_inc_ad dtype ((cy <<< DPA_V_CY) ||| (hd <<< DPA_V_HD) ||| sc) =
      (if (getGeo dtype).sc ≤ sc + 1 then
        (if (getGeo dtype).hd ≤ hd + 1 then
          ((cy <<< DPA_V_CY) ||| (0 <<< DPA_V_HD) ||| 0, true)
        else ((cy <<< DPA_V_CY) ||| ((hd + 1) <<< DPA_V_HD) ||| 0, false))
      else ((cy <<< DPA_V_CY) ||| (hd <<< DPA_V_HD) ||| (sc + 1), false)) := by
  obtain ⟨_, _, hh31, _, hs17⟩ := geo_bounds dtype hd8
  have hh32 : hd < 32 := by omega
  have hs32 : sc < 32 := by omega
  unfold dp_inc_ad
  rw [DPA_GETCY_pack hc hh32 hs32, DPA_GETHD_pack hc hh32 hs32,
    DPA_GETSC_pack hc hh32 hs32]
  by_cases h1 : (getGeo dtype).sc ≤ sc + 1
  · by_cases h2 : (getGeo dtype).hd ≤ hd + 1
    · simp [h1, h2]
    · simp [h1, h2]
  · have hns : ¬ sc + 1 = 0 := by omega
    simp [h1, hns]

theorem iterInc_rank (dtype : Nat) (hd8 : dtype < 8) (cy : Nat) (hc : cy < 1024) :
    ∀ (n hd sc : Nat), hd < (getGeo dtype).hd → sc < (getGeo dtype).sc →
      iterInc dtype n ((cy <<< DPA_V_CY) ||| (hd <<< DPA_V_HD) ||| sc) =
        ((cy <<< DPA_V_CY) |||
          ((((hd * (getGeo dtype).sc + sc + n) %
              ((getGeo dtype).sc * (getGeo dtype).hd)) /
            (getGeo dtype).sc) <<< DPA_V_HD) |||
          ((hd * (getGeo dtype).sc + sc + n) % (getGeo dtype).sc),
         (hd * (getGeo dtype).sc + sc + n) /
           ((getGeo dtype).sc * (getGeo dtype).hd)) := by
  obtain ⟨_, hh5, _, hs6, _⟩ := geo_bounds dtype hd8
  intro n
  induction n with
  | zero =>
      intro hd sc hh hs
      have hr : hd * (getGeo dtype).sc + sc < (getGeo dtype).sc * (getGeo dtype).hd := by
        have h1 : hd * (getGeo dtype).sc + sc < (hd + 1) * (getGeo dtype).sc := by
          rw [Nat.succ_mul]
          omega
        have h2 : (hd + 1) * (getGeo dtype).sc ≤ (getGeo dtype).hd * (getGeo dtype).sc :=
          Nat.mul_le_mul_right _ hh
        calc hd * (getGeo dtype).sc + sc < (hd + 1) * (getGeo dtype).sc := h1
          _ ≤ (getGeo dtype).hd * (getGeo dtype).sc := h2
          _ = (getGeo dtype).sc * (getGeo dtype).hd := Nat.mul_comm _ _
      have e0 : hd * (getGeo dtype).sc + sc + 0 = hd * (getGeo dtype).sc + sc :=
        Nat.add_zero _
      have emod : (hd * (getGeo dtype).sc + sc) % ((getGeo dtype).sc * (getGeo dtype).hd) =
          hd * (getGeo dtype).sc + sc := Nat.mod_eq_of_lt hr
      have ediv : (hd * (getGeo dtype).sc + sc) / (getGeo dtype).sc = hd := by
        rw [Nat.add_comm, Nat.mul_comm, Nat.add_mul_div_left _ _ (by omega),
          Nat.div_eq_of_lt hs, Nat.zero_add]
      have emods : (hd * (getGeo dtype).sc + sc) % (getGeo dtype).sc = sc := by
        rw [Nat.add_comm, Nat.mul_comm, Nat.add_mul_mod_self_left, Nat.mod_eq_of_lt hs]
      have edivM : (hd * (getGeo dtype).sc + sc) /
          ((getGeo dtype).sc * (getGeo dtype).hd) = 0 := Nat.div_eq_of_lt hr
      rw [show iterInc dtype 0 ((cy <<< DPA_V_CY) ||| (hd <<< DPA_V_HD) ||| sc) =
        (((cy <<< DPA_V_CY) ||| (hd <<< DPA_V_HD) ||| sc), 0) from rfl]
      rw [e0, emod, ediv, emods, edivM]
  | succ n ih =>
      intro hd sc hh hs
      show (let r := dp_inc_ad dtype ((cy <<< DPA_V_CY) ||| (hd <<< DPA_V_HD) ||| sc)
            let r2 := iterInc dtype n r.1
            (r2.1, (if r.2 then 1 else 0) + r2.2)) = _
      rw [dp_inc_ad_step dtype cy hd sc hd8 hc hh hs]
      by_cases h1 : (getGeo dtype).sc ≤ sc + 1
      · have hsc1 : sc + 1 = (getGeo dtype).sc := by omega
        by_cases h2 : (getGeo dtype).hd ≤ hd + 1
        · have hhd1 : hd + 1 = (getGeo dtype).hd := by omega
          simp only [h1, h2, if_true, if_pos]
          rw [ih 0 0 (by omega) (by omega)]
          have heq : hd * (getGeo dtype).sc + sc + (n + 1) =
              (getGeo dtype).sc * (getGeo dtype).hd + n := by
            have : (hd + 1) * (getGeo dtype).sc = (getGeo dtype).sc * (getGeo dtype).hd := by
              rw [hhd1, Nat.mul_comm]
            rw [← this, Nat.succ_mul]
            omega
          have e1 : (0 * (getGeo dtype).sc + 0 + n) = n := by omega
          have e2 : ((getGeo dtype).sc * (getGeo dtype).hd + n) %
              ((getGeo dtype).sc * (getGeo dtype).hd) = n % ((getGeo dtype).sc * (getGeo dtype).hd) :=
            Nat.add_mod_left _ _
          have e3 : ((getGeo dtype).sc * (getGeo dtype).hd + n) % (getGeo dtype).sc =
              n % (getGeo dtype).sc := by
            rw [Nat.add_comm, Nat.add_mul_mod_self_left]
          have e4 : ((getGeo dtype).sc * (getGeo dtype).hd + n) /
              ((getGeo dtype).sc * (getGeo dtype).hd) =
              1 + n / ((getGeo dtype).sc * (getGeo dtype).hd) := by
            rw [Nat.add_comm, Nat.add_div_right _ (by positivity)]
            omega
          have e5 : n % ((getGeo dtype).sc * (getGeo dtype).hd) % (getGeo dtype).sc =
              n % (getGeo dtype).sc :=
            Nat.mod_mod_of_dvd _ ⟨(getGeo dtype).hd, rfl⟩
          rw [e1, heq, e2, e3, e4]
        · simp only [h1, h2, if_true, if_false]
          rw [ih (hd + 1) 0 (by omega) (by omega)]
          have heq : (hd + 1) * (getGeo dtype).sc + 0 + n =
              hd * (getGeo dtype).sc + sc + (n + 1) := by
            rw [Nat.succ_mul]
            omega
          rw [heq]
          simp
      · have hlt : sc + 1 < (getGeo dtype).sc := by omega
        simp only [h1, if_false]
        rw [ih hd (sc + 1) hh hlt]
        have heq : hd * (getGeo dtype).sc + (sc + 1) + n =
            hd * (getGeo dtype).sc + sc + (n + 1) := by omega
        rw [heq]
        simp

theorem rank_lt {S H hd sc : Nat} (hh : hd < H) (hs : sc < S) : hd * S + sc < S * H := by
  have h1 : hd * S + sc < (hd + 1) * S := by
    rw [Nat.succ_mul]
    omega
  have h2 : (hd + 1) * S ≤ H * S := Nat.mul_le_mul_right _ hh
  calc hd * S + sc < (hd + 1) * S := h1
    _ ≤ H * S := h2
    _ = S * H := Nat.mul_comm _ _

/-- C5: for every disk address that is valid for one of the table
geometries, applying dp_inc_ad sectorsPerTrack × headsPerCylinder
times returns the address to the original (cylinder, head, sector)
triple, and the end-of-cylinder wrap is reported on exactly one of
those applications. -/
theorem dp_inc_ad_cycle (dtype uda : Nat) (hd8 : dtype < 8)
    (hval : dp_inv_ad dtype uda = false) :
    DPA_GETCY (iterInc dtype ((getGeo dtype).sc * (getGeo dtype).hd) uda).1 =
      DPA_GETCY uda ∧
    DPA_GETHD (iterInc dtype ((getGeo dtype).sc * (getGeo dtype).hd) uda).1 =
      DPA_GETHD uda ∧
    DPA_GETSC (iterInc dtype ((getGeo dtype).sc * (getGeo dtype).hd) uda).1 =
      DPA_GETSC uda ∧
    (iterInc dtype ((getGeo dtype).sc * (getGeo dtype).hd) uda).2 = 1 := by
  obtain ⟨_, hh5, _, hs6, _⟩ := geo_bounds dtype hd8
  have hbou : DPA_GETCY uda < (getGeo dtype).cy ∧ DPA_GETHD uda < (getGeo dtype).hd ∧
      DPA_GETSC uda < (getGeo dtype).sc := by
    simp only [dp_inv_ad, Bool.or_eq_false_iff, decide_eq_false_iff_not, Nat.not_le] at hval
    exact ⟨hval.1.1, hval.1.2, hval.2⟩
  obtain ⟨hcy, hhd, hsc⟩ := hbou
  have hcy1024 : DPA_GETCY uda < 1024 := by
    have h := DPA_GETCY_le uda
    omega
  have hhd32 : DPA_GETHD uda < 32 := by
    have h : DPA_GETHD uda ≤ 0x1F := Nat.and_le_right
    omega
  have hsc32 : DPA_GETSC uda < 32 := by
    have h : DPA_GETSC uda ≤ 0x1F := Nat.and_le_right
    omega
  have hSpos : 0 < (getGeo dtype).sc := by omega
  have hr0 : DPA_GETHD uda * (getGeo dtype).sc + DPA_GETSC uda <
      (getGeo dtype).sc * (getGeo dtype).hd := rank_lt hhd hsc
  obtain ⟨m, hm⟩ : ∃ m, (getGeo dtype).sc * (getGeo dtype).hd = m + 1 :=
    ⟨(getGeo dtype).sc * (getGeo dtype).hd - 1, by omega⟩
  have hsame : dp_inc_ad dtype uda = dp_inc_ad dtype
      ((DPA_GETCY uda <<< DPA_V_CY) ||| (DPA_GETHD uda <<< DPA_V_HD) |||
        DPA_GETSC uda) := by
    unfold dp_inc_ad
    rw [DPA_GETCY_pack hcy1024 hhd32 hsc32, DPA_GETHD_pack hcy1024 hhd32 hsc32,
      DPA_GETSC_pack hcy1024 hhd32 hsc32]
  have hiter : iterInc dtype (m + 1) uda = iterInc dtype (m + 1)
      ((DPA_GETCY uda <<< DPA_V_CY) ||| (DPA_GETHD uda <<< DPA_V_HD) |||
        DPA_GETSC uda) := by
    show (let r := dp_inc_ad dtype uda
          let r2 := iterInc dtype m r.1
          (r2.1, (if r.2 then 1 else 0) + r2.2)) = _
    rw [hsame]
    rfl
  have hrank := iterInc_rank dtype hd8 (DPA_GETCY uda) hcy1024 (m + 1)
    (DPA_GETHD uda) (DPA_GETSC uda) hhd hsc
  have emod : (DPA_GETHD uda * (getGeo dtype).sc + DPA_GETSC uda + (m + 1)) %
      ((getGeo dtype).sc * (getGeo dtype).hd) =
      DPA_GETHD uda * (getGeo dtype).sc + DPA_GETSC uda := by
    rw [← hm, Nat.add_mod_right]
    exact Nat.mod_eq_of_lt hr0
  have eX : (DPA_GETHD uda * (getGeo dtype).sc + DPA_GETSC uda + (m + 1)) %
      ((getGeo dtype).sc * (getGeo dtype).hd) / (getGeo dtype).sc = DPA_GETHD uda := by
    rw [emod, Nat.add_comm, Nat.mul_comm, Nat.add_mul_div_left _ _ hSpos,
      Nat.div_eq_of_lt hsc, Nat.zero_add]
  have eY : (DPA_GETHD uda * (getGeo dtype).sc + DPA_GETSC uda + (m + 1)) %
      (getGeo dtype).sc = DPA_GETSC uda := by
    rw [← hm, Nat.add_mul_mod_self_left,
      Nat.mul_comm (DPA_GETHD uda) ((getGeo dtype).sc), Nat.mul_add_mod,
      Nat.mod_eq_of_lt hsc]
  have eZ : (DPA_GETHD uda * (getGeo dtype).sc + DPA_GETSC uda + (m + 1)) /
      ((getGeo dtype).sc * (getGeo dtype).hd) = 1 := by
    rw [← hm, Nat.add_div_right _ (by omega)]
    rw [Nat.div_eq_of_lt hr0]
  rw [hm, hiter, hrank, eX, eY, eZ]
  exact ⟨DPA_GETCY_pack hcy1024 hhd32 hsc32, DPA_GETHD_pack hcy1024 hhd32 hsc32,
    DPA_GETSC_pack hcy1024 hhd32 hsc32, rfl⟩

theorem dp_inc_ad_cycle_witness :
    (0 : Nat) < 8 ∧ dp_inv_ad 0 ((1 <<< 16) ||| (2 <<< 8) ||| 3) = false ∧
    (DPA_GETCY (iterInc 0 ((getGeo 0).sc * (getGeo 0).hd)
        ((1 <<< 16) ||| (2 <<< 8) ||| 3)).1 =
      DPA_GETCY ((1 <<< 16) ||| (2 <<< 8) ||| 3) ∧
    DPA_GETHD (iterInc 0 ((getGeo 0).sc * (getGeo 0).hd)
        ((1 <<< 16) ||| (2 <<< 8) ||| 3)).1 =
      DPA_GETHD ((1 <<< 16) ||| (2 <<< 8) ||| 3) ∧
    DPA_GETSC (iterInc 0 ((getGeo 0).sc * (getGeo 0).hd)
        ((1 <<< 16) ||| (2 <<< 8) ||| 3)).1 =
      DPA_GETSC ((1 <<< 16) ||| (2 <<< 8) ||| 3) ∧
    (iterInc 0 ((getGeo 0).sc * (getGeo 0).hd) ((1 <<< 16) ||| (2 <<< 8) ||| 3)).2 = 1) :=
  ⟨by decide, by decide,
    dp_inc_ad_cycle 0 ((1 <<< 16) ||| (2 <<< 8) ||| 3) (by decide) (by decide)⟩
